import Mathlib

/-!
# Tuner VTS test configuration: support determination and connection validation

A shallow embedding of `tv/tuner/aidl/vts/functional/VtsHalTvTunerTestConfigurations.h`:
the eight `determine*` functions, `determineDataFlows` and `validateConnections`,
over an explicit state holding the file's static maps and connection records.

Conventions of the embedding:

* `std::map<string, V>` is an association list of entries; `find(k) != end()` is
  `HwMap.contains`, `empty()` is `HwMap.empty`, and `operator[]` is `HwMap.subscript`,
  which returns the stored value or, when the key is absent, stores and returns a
  value-initialised record (for `FrontendConfig` that means `isSoftwareFe = false`).
* `ALOGD` / `ALOGW` lines have no effect on the state or the returned boolean and are
  left out.
* `x &= e` on `bool` is `x := x && e`.
-/

namespace TunerConfig

/-! ## Configuration maps -/

/-- A `std::map<string, V>`: entries are looked up by key, first match wins. -/
structure HwMap (V : Type) where
  entries : List (String × V)
deriving DecidableEq, Repr

namespace HwMap

variable {V : Type}

/-- The keys stored in the map. -/
def keys (m : HwMap V) : List String := m.entries.map Prod.fst

/-- Key membership, the specification-level reading of "is a key of the map". -/
def HasKey (m : HwMap V) (k : String) : Prop := k ∈ m.keys

instance (m : HwMap V) (k : String) : Decidable (m.HasKey k) :=
  inferInstanceAs (Decidable (k ∈ m.keys))

/-- The map method `empty()`. -/
def empty (m : HwMap V) : Bool := m.entries.isEmpty

/-- The map method `find(k)`; `none` stands for `end()`. -/
def find (m : HwMap V) (k : String) : Option V := m.entries.lookup k

/-- The test `find(k) != end()`. -/
def contains (m : HwMap V) (k : String) : Bool := (m.find k).isSome

/-- The map `operator[]`: the stored value, or a freshly stored value-initialised
record when the key is absent. Returns the value read and the map afterwards. -/
def subscript [Inhabited V] (m : HwMap V) (k : String) : V × HwMap V :=
  match m.find k with
  | some v => (v, m)
  | none => (default, ⟨(k, default) :: m.entries⟩)

end HwMap

/-! ## Configuration records

The record types are declared in `TunerTestingConfigAidlReaderV1_0.h`. Of
`FrontendConfig` only `isSoftwareFe` is read by the functions embedded here; the
values of the other maps are never read, only their keys. -/

/-- The frontend record; value-initialisation clears `isSoftwareFe`. -/
structure FrontendConfig where
  isSoftwareFe : Bool
  canConnectToCiCam : Bool
  ciCamId : Int
deriving DecidableEq, Repr

instance : Inhabited FrontendConfig := ⟨⟨false, false, 0⟩⟩

/-- The filter record (only its key is consulted here). -/
structure FilterConfig where
  bufferSize : Int
deriving DecidableEq, Repr

/-- The DVR record (only its key is consulted here). -/
structure DvrConfig where
  bufferSize : Int
deriving DecidableEq, Repr

/-- The LNB record (only its key is consulted here). -/
structure LnbConfig where
  name : String
deriving DecidableEq, Repr

/-- The time filter record (only its key is consulted here). -/
structure TimeFilterConfig where
  timeStamp : Int
deriving DecidableEq, Repr

/-- The descrambler record (only its key is consulted here). -/
structure DescramblerConfig where
  casSystemId : Int
deriving DecidableEq, Repr

/-! ## Connection records (one per test data flow) -/

structure LiveBroadcastHardwareConnections where
  hasFrontendConnection : Bool
  frontendId : String
  dvrSoftwareFeId : String
  audioFilterId : String
  videoFilterId : String
deriving DecidableEq, Repr

structure ScanHardwareConnections where
  hasFrontendConnection : Bool
  frontendId : String
deriving DecidableEq, Repr

structure DvrPlaybackHardwareConnections where
  support : Bool
  hasExtraFilters : Bool
  dvrId : String
  audioFilterId : String
  videoFilterId : String
  sectionFilterId : String
  extraFilters : List String
deriving DecidableEq, Repr

structure DvrRecordHardwareConnections where
  support : Bool
  hasFrontendConnection : Bool
  frontendId : String
  dvrRecordId : String
  dvrSoftwareFeId : String
  recordFilterId : String
  dvrSourceId : String
deriving DecidableEq, Repr

structure DescramblingHardwareConnections where
  support : Bool
  hasFrontendConnection : Bool
  frontendId : String
  dvrSoftwareFeId : String
  audioFilterId : String
  videoFilterId : String
  descramblerId : String
  dvrSourceId : String
  extraFilters : List String
deriving DecidableEq, Repr

structure LnbLiveHardwareConnections where
  support : Bool
  frontendId : String
  audioFilterId : String
  videoFilterId : String
  lnbId : String
  diseqcMsgs : List String
  extraFilters : List String
deriving DecidableEq, Repr

structure LnbRecordHardwareConnections where
  support : Bool
  frontendId : String
  dvrRecordId : String
  recordFilterId : String
  lnbId : String
  diseqcMsgs : List String
  extraFilters : List String
deriving DecidableEq, Repr

structure TimeFilterHardwareConnections where
  support : Bool
  timeFilterId : String
deriving DecidableEq, Repr

/-! ## The process-wide state -/

/-- The static variables the functions read and write: the seven hardware maps and
the eight connection records of this file, and the globals of the configuration
reader they consult (`hasSwFe`, `hasHwFe`, the id lists and the sentinel
`emptyHardwareId`). -/
structure State where
  frontendMap : HwMap FrontendConfig
  filterMap : HwMap FilterConfig
  dvrMap : HwMap DvrConfig
  lnbMap : HwMap LnbConfig
  timeFilterMap : HwMap TimeFilterConfig
  diseqcMsgMap : HwMap (List Nat)
  descramblerMap : HwMap DescramblerConfig
  live : LiveBroadcastHardwareConnections
  scan : ScanHardwareConnections
  playback : DvrPlaybackHardwareConnections
  record : DvrRecordHardwareConnections
  descrambling : DescramblingHardwareConnections
  lnbLive : LnbLiveHardwareConnections
  lnbRecord : LnbRecordHardwareConnections
  timeFilter : TimeFilterHardwareConnections
  hasSwFe : Bool
  hasHwFe : Bool
  playbackDvrIds : List String
  audioFilterIds : List String
  videoFilterIds : List String
  recordFilterIds : List String
  recordDvrIds : List String
  emptyHardwareId : String
deriving DecidableEq, Repr

/-! ## Support determination -/

def determineScan (s : State) : State :=
  if !s.frontendMap.empty then
    { s with scan := { s.scan with hasFrontendConnection := true } }
  else s

def determineTimeFilter (s : State) : State :=
  if !s.timeFilterMap.empty then
    { s with timeFilter := { s.timeFilter with support := true } }
  else s

def determineDvrPlayback (s : State) : State :=
  if !s.playbackDvrIds.isEmpty && !s.audioFilterIds.isEmpty && !s.videoFilterIds.isEmpty then
    { s with playback := { s.playback with support := true } }
  else s

def determineLnbLive (s : State) : State :=
  if !s.audioFilterIds.isEmpty && !s.videoFilterIds.isEmpty && !s.frontendMap.empty &&
      !s.lnbMap.empty then
    { s with lnbLive := { s.lnbLive with support := true } }
  else s

def determineLnbRecord (s : State) : State :=
  if !s.frontendMap.empty && !s.recordFilterIds.isEmpty && !s.recordDvrIds.isEmpty &&
      !s.lnbMap.empty then
    { s with lnbRecord := { s.lnbRecord with support := true } }
  else s

def determineLive (s : State) : State :=
  if s.videoFilterIds.isEmpty || s.audioFilterIds.isEmpty || s.frontendMap.empty then s
  else if s.hasSwFe && !s.hasHwFe && s.dvrMap.empty then s
  else { s with live := { s.live with hasFrontendConnection := true } }

def determineDescrambling (s : State) : State :=
  if s.descramblerMap.empty || s.audioFilterIds.isEmpty || s.videoFilterIds.isEmpty then s
  else if s.frontendMap.empty && s.playbackDvrIds.isEmpty then s
  else if s.hasSwFe && !s.hasHwFe && s.playbackDvrIds.isEmpty then s
  else { s with descrambling := { s.descrambling with support := true } }

def determineDvrRecord (s : State) : State :=
  if s.recordDvrIds.isEmpty || s.recordFilterIds.isEmpty then s
  else if s.frontendMap.empty && s.playbackDvrIds.isEmpty then s
  else if s.hasSwFe && !s.hasHwFe && s.playbackDvrIds.isEmpty then s
  else { s with record := { s.record with support := true } }

def determineDataFlows (s : State) : State :=
  let s := determineScan s
  let s := determineTimeFilter s
  let s := determineDvrPlayback s
  let s := determineLnbLive s
  let s := determineLnbRecord s
  let s := determineLive s
  let s := determineDescrambling s
  determineDvrRecord s

/-! ## Connection validation

Each local `bool` of `validateConnections` is a definition of its own, named after
the local; `validateConnections` chains them with the early returns of the source. -/

/-- The guard at the head of `validateConnections`: a supported record flow with
neither a frontend nor a DVR source. -/
def recordHasNoSource (s : State) : Bool :=
  s.record.support && !s.record.hasFrontendConnection &&
    (s.record.dvrSourceId == s.emptyHardwareId)

/-- The local `feIsValid`. -/
def feIsValid (s : State) : Bool :=
  let v : Bool :=
    if s.live.hasFrontendConnection then s.frontendMap.contains s.live.frontendId else true
  let v := v &&
    (if s.scan.hasFrontendConnection then s.frontendMap.contains s.scan.frontendId else true)
  let v := v &&
    (if s.record.support && s.record.hasFrontendConnection then
      s.frontendMap.contains s.record.frontendId else true)
  let v := v &&
    (if s.descrambling.support && s.descrambling.hasFrontendConnection then
      s.frontendMap.contains s.descrambling.frontendId else true)
  let v := v &&
    (if s.lnbLive.support then s.frontendMap.contains s.lnbLive.frontendId else true)
  v && (if s.lnbRecord.support then s.frontendMap.contains s.lnbRecord.frontendId else true)

/-- The local `dvrIsValid`, together with the state after the `frontendMap[...]`
subscripts evaluated while computing it. -/
def dvrIsValid (s : State) : Bool × State :=
  let (fe, fm) := s.frontendMap.subscript s.live.frontendId
  let s : State := { s with frontendMap := fm }
  let v : Bool := if fe.isSoftwareFe then s.dvrMap.contains s.live.dvrSoftwareFeId else true
  let (v, s) : Bool × State :=
    if s.record.support then
      let (v, s) : Bool × State :=
        if s.record.hasFrontendConnection then
          let (fe, fm) := s.frontendMap.subscript s.record.frontendId
          let s : State := { s with frontendMap := fm }
          if fe.isSoftwareFe then (v && s.dvrMap.contains s.record.dvrSoftwareFeId, s)
          else (v, s)
        else (v && s.dvrMap.contains s.record.dvrSourceId, s)
      (v && s.dvrMap.contains s.record.dvrRecordId, s)
    else (v, s)
  let (v, s) : Bool × State :=
    if s.descrambling.support then
      if s.descrambling.hasFrontendConnection then
        let (fe, fm) := s.frontendMap.subscript s.descrambling.frontendId
        let s : State := { s with frontendMap := fm }
        if fe.isSoftwareFe then (v && s.dvrMap.contains s.descrambling.dvrSoftwareFeId, s)
        else (v, s)
      else (v && s.dvrMap.contains s.descrambling.dvrSourceId, s)
    else (v, s)
  let v := v &&
    (if s.lnbRecord.support then s.dvrMap.contains s.lnbRecord.dvrRecordId else true)
  let v := v && (if s.playback.support then s.dvrMap.contains s.playback.dvrId else true)
  (v, s)

/-- The loop `for (auto& id : ids) acc &= m.find(id) != m.end();`. -/
def allResolve {V : Type} (m : HwMap V) (acc : Bool) (ids : List String) : Bool :=
  ids.foldl (fun acc id => acc && m.contains id) acc

/-- The local `filterIsValid`. -/
def filterIsValid (s : State) : Bool :=
  let v : Bool :=
    if s.live.hasFrontendConnection then
      s.filterMap.contains s.live.audioFilterId && s.filterMap.contains s.live.videoFilterId
    else true
  let v := v &&
    (if s.record.support then s.filterMap.contains s.record.recordFilterId else true)
  let v := v &&
    (if s.descrambling.support then
      s.filterMap.contains s.descrambling.videoFilterId &&
        s.filterMap.contains s.descrambling.audioFilterId
    else true)
  let v := allResolve s.filterMap v s.descrambling.extraFilters
  let v := v &&
    (if s.lnbLive.support then
      s.filterMap.contains s.lnbLive.audioFilterId &&
        s.filterMap.contains s.lnbLive.videoFilterId
    else true)
  let v := v &&
    (if s.lnbRecord.support then s.filterMap.contains s.lnbRecord.recordFilterId else true)
  let v := allResolve s.filterMap v s.lnbRecord.extraFilters
  let v := allResolve s.filterMap v s.lnbLive.extraFilters
  let v := v &&
    (if s.playback.support then
      s.filterMap.contains s.playback.audioFilterId &&
        s.filterMap.contains s.playback.videoFilterId
    else true)
  let v := v &&
    (if s.playback.sectionFilterId == s.emptyHardwareId then true
     else s.filterMap.contains s.playback.sectionFilterId)
  s.playback.extraFilters.foldl
    (fun acc id => acc && (if s.playback.hasExtraFilters then s.filterMap.contains id else true))
    v

/-- The local `timeFilterIsValid`; it only selects a warning. -/
def timeFilterIsValid (s : State) : Bool :=
  if s.timeFilter.support then s.timeFilterMap.contains s.timeFilter.timeFilterId else true

/-- The local `descramblerIsValid`. -/
def descramblerIsValid (s : State) : Bool :=
  if s.descrambling.support then s.descramblerMap.contains s.descrambling.descramblerId
  else true

/-- The local `lnbIsValid`. -/
def lnbIsValid (s : State) : Bool :=
  let v : Bool := if s.lnbLive.support then s.lnbMap.contains s.lnbLive.lnbId else true
  v && (if s.lnbRecord.support then s.lnbMap.contains s.lnbRecord.lnbId else true)

/-- The local `diseqcMsgsIsValid`. -/
def diseqcMsgsIsValid (s : State) : Bool :=
  let v := allResolve s.diseqcMsgMap true s.lnbRecord.diseqcMsgs
  allResolve s.diseqcMsgMap v s.lnbLive.diseqcMsgs

/-- The function `validateConnections`: the returned boolean and the state it leaves. -/
def validateConnections (s : State) : Bool × State :=
  if recordHasNoSource s then (false, s)
  else if !feIsValid s then (false, s)
  else
    let (dvrOk, s) := dvrIsValid s
    if !dvrOk then (false, s)
    else if !filterIsValid s then (false, s)
    else
      -- a failing time filter lookup is only logged
      let _timeFilterOk := timeFilterIsValid s
      if !descramblerIsValid s then (false, s)
      else if !lnbIsValid s then (false, s)
      else if !diseqcMsgsIsValid s then (false, s)
      else (true, s)

/-! ## Specification-level readings -/

/-- A software frontend is stored under `k`. -/
def SoftwareFeAt (m : HwMap FrontendConfig) (k : String) : Prop :=
  ∃ c, m.find k = some c ∧ c.isSoftwareFe = true

/-- The value `frontendMap[k].isSoftwareFe` reads: the stored flag, or the cleared
flag of the value-initialised record when `k` is absent. -/
def isSoftwareFeAt (m : HwMap FrontendConfig) (k : String) : Bool :=
  ((m.find k).getD default).isSoftwareFe

/-- The value of the local `dvrIsValid`, read off the state before the call. -/
def dvrCheck (s : State) : Bool :=
  (if isSoftwareFeAt s.frontendMap s.live.frontendId then
      s.dvrMap.contains s.live.dvrSoftwareFeId else true) &&
  (if s.record.support then
      (if s.record.hasFrontendConnection then
        (if isSoftwareFeAt s.frontendMap s.record.frontendId then
          s.dvrMap.contains s.record.dvrSoftwareFeId else true)
       else s.dvrMap.contains s.record.dvrSourceId) &&
      s.dvrMap.contains s.record.dvrRecordId
    else true) &&
  (if s.descrambling.support then
      (if s.descrambling.hasFrontendConnection then
        (if isSoftwareFeAt s.frontendMap s.descrambling.frontendId then
          s.dvrMap.contains s.descrambling.dvrSoftwareFeId else true)
       else s.dvrMap.contains s.descrambling.dvrSourceId)
    else true) &&
  (if s.lnbRecord.support then s.dvrMap.contains s.lnbRecord.dvrRecordId else true) &&
  (if s.playback.support then s.dvrMap.contains s.playback.dvrId else true)

/-- The frontend map left behind by the subscripts evaluated in `dvrIsValid`. -/
def frontendMapAfter (s : State) : HwMap FrontendConfig :=
  let m := (s.frontendMap.subscript s.live.frontendId).2
  let m := if s.record.support && s.record.hasFrontendConnection then
    (m.subscript s.record.frontendId).2 else m
  if s.descrambling.support && s.descrambling.hasFrontendConnection then
    (m.subscript s.descrambling.frontendId).2 else m

/-! ## Sample states -/

/-- A state with empty maps, empty id lists, all flags cleared and every id field
set to `id`; the sentinel is the empty string. -/
def blankState (id : String) : State where
  frontendMap := ⟨[]⟩
  filterMap := ⟨[]⟩
  dvrMap := ⟨[]⟩
  lnbMap := ⟨[]⟩
  timeFilterMap := ⟨[]⟩
  diseqcMsgMap := ⟨[]⟩
  descramblerMap := ⟨[]⟩
  live := ⟨false, id, id, id, id⟩
  scan := ⟨false, id⟩
  playback := ⟨false, false, id, id, id, "", []⟩
  record := ⟨false, false, id, id, id, id, id⟩
  descrambling := ⟨false, false, id, id, id, id, id, id, []⟩
  lnbLive := ⟨false, id, id, id, id, [], []⟩
  lnbRecord := ⟨false, id, id, id, id, [], []⟩
  timeFilter := ⟨false, id⟩
  hasSwFe := false
  hasHwFe := false
  playbackDvrIds := []
  audioFilterIds := []
  videoFilterIds := []
  recordFilterIds := []
  recordDvrIds := []
  emptyHardwareId := ""

/-- A state in which every data flow is supported and every reference resolves:
a software frontend `FE_DEFAULT`, a hardware frontend `FE_HW`, record and
descrambling fed from a frontend and from a playback DVR respectively. -/
def fullState : State where
  frontendMap := ⟨[("FE_DEFAULT", ⟨true, true, 0⟩), ("FE_HW", ⟨false, false, 0⟩)]⟩
  filterMap := ⟨[("FILTER_AUDIO_DEFAULT", ⟨0x1000000⟩), ("FILTER_VIDEO_DEFAULT", ⟨0x1000000⟩),
    ("FILTER_RECORD", ⟨0x400000⟩), ("FILTER_EXTRA", ⟨0x400000⟩)]⟩
  dvrMap := ⟨[("DVR_PLAYBACK", ⟨0x400000⟩), ("DVR_RECORD", ⟨0x400000⟩),
    ("DVR_SW_FE", ⟨0x400000⟩)]⟩
  lnbMap := ⟨[("LNB", ⟨"lnb0"⟩)]⟩
  timeFilterMap := ⟨[("TIME_FILTER", ⟨1⟩)]⟩
  diseqcMsgMap := ⟨[("DISEQC_POWER_ON", [14, 0, 3])]⟩
  descramblerMap := ⟨[("DESCRAMBLER", ⟨1⟩)]⟩
  live := ⟨true, "FE_DEFAULT", "DVR_SW_FE", "FILTER_AUDIO_DEFAULT", "FILTER_VIDEO_DEFAULT"⟩
  scan := ⟨true, "FE_DEFAULT"⟩
  playback := ⟨true, true, "DVR_PLAYBACK", "FILTER_AUDIO_DEFAULT", "FILTER_VIDEO_DEFAULT", "",
    ["FILTER_EXTRA"]⟩
  record := ⟨true, true, "FE_DEFAULT", "DVR_RECORD", "DVR_SW_FE", "FILTER_RECORD", ""⟩
  descrambling := ⟨true, false, "FE_DEFAULT", "DVR_SW_FE", "FILTER_AUDIO_DEFAULT",
    "FILTER_VIDEO_DEFAULT", "DESCRAMBLER", "DVR_PLAYBACK", ["FILTER_EXTRA"]⟩
  lnbLive := ⟨true, "FE_HW", "FILTER_AUDIO_DEFAULT", "FILTER_VIDEO_DEFAULT", "LNB",
    ["DISEQC_POWER_ON"], []⟩
  lnbRecord := ⟨true, "FE_HW", "DVR_RECORD", "FILTER_RECORD", "LNB", ["DISEQC_POWER_ON"],
    ["FILTER_EXTRA"]⟩
  timeFilter := ⟨true, "TIME_FILTER"⟩
  hasSwFe := true
  hasHwFe := true
  playbackDvrIds := ["DVR_PLAYBACK"]
  audioFilterIds := ["FILTER_AUDIO_DEFAULT"]
  videoFilterIds := ["FILTER_VIDEO_DEFAULT"]
  recordFilterIds := ["FILTER_RECORD"]
  recordDvrIds := ["DVR_RECORD"]
  emptyHardwareId := ""

/-- No data flow claims support: the eight flags written by the `determine*`
functions are all false. -/
def NoSupportClaimed (s : State) : Prop :=
  s.live.hasFrontendConnection = false ∧ s.scan.hasFrontendConnection = false ∧
  s.record.support = false ∧ s.descrambling.support = false ∧
  s.lnbLive.support = false ∧ s.lnbRecord.support = false ∧
  s.playback.support = false ∧ s.timeFilter.support = false

instance (s : State) : Decidable (NoSupportClaimed s) := by
  unfold NoSupportClaimed
  infer_instance

/-- Nothing is supported and all maps are empty, but lnb-live lists a diseqc message. -/
def danglingDiseqcState : State :=
  { blankState "ID" with lnbLive := ⟨false, "ID", "ID", "ID", "ID", ["DISEQC_POWER_ON"], []⟩ }

/-- Nothing is supported and all maps are empty, but descrambling lists an extra
filter. -/
def danglingExtraFilterState : State :=
  { blankState "ID" with
    descrambling := ⟨false, false, "ID", "ID", "ID", "ID", "ID", "ID", ["FILTER_EXTRA"]⟩ }

/-- Frontend `FE_HW`, one LNB and audio, video, record filter and record DVR ids are
configured; the time filter map and the playback DVR id list are empty. All flags
are still false. -/
def loadedState : State :=
  { blankState "ID" with
    frontendMap := ⟨[("FE_HW", ⟨false, false, 0⟩)]⟩
    lnbMap := ⟨[("LNB", ⟨"lnb0"⟩)]⟩
    hasHwFe := true
    audioFilterIds := ["FILTER_AUDIO_DEFAULT"]
    videoFilterIds := ["FILTER_VIDEO_DEFAULT"]
    recordFilterIds := ["FILTER_RECORD"]
    recordDvrIds := ["DVR_RECORD"] }

/-- Only the software frontend `FE_DEFAULT` is configured, with filters and a
descrambler but no DVR at all. All flags are still false. -/
def softwareOnlyState : State :=
  { blankState "ID" with
    frontendMap := ⟨[("FE_DEFAULT", ⟨true, true, 0⟩)]⟩
    filterMap := ⟨[("FILTER_AUDIO_DEFAULT", ⟨0x1000000⟩), ("FILTER_VIDEO_DEFAULT", ⟨0x1000000⟩)]⟩
    descramblerMap := ⟨[("DESCRAMBLER", ⟨1⟩)]⟩
    hasSwFe := true
    audioFilterIds := ["FILTER_AUDIO_DEFAULT"]
    videoFilterIds := ["FILTER_VIDEO_DEFAULT"]
    recordFilterIds := ["FILTER_RECORD"] }

/-- All maps are empty and every id field is unset (the empty string), except that
scan names the frontend `FE_DEFAULT`. All flags are false. -/
def emptyFrontendState : State :=
  { blankState "" with scan := ⟨false, "FE_DEFAULT"⟩ }

/-- The state after determination when only the built-in software frontend is
configured: scan is connected to `FE_DEFAULT`, live has no frontend connection and
its id fields are unset (the empty string). -/
def unsetLiveState : State :=
  { blankState "" with
    frontendMap := ⟨[("FE_DEFAULT", ⟨true, true, 0⟩)]⟩
    scan := ⟨true, "FE_DEFAULT"⟩
    hasSwFe := true }

/-- The state `fullState` with the record flow detached from its frontend and its
`dvrSourceId` left at the sentinel, while the sentinel itself is a key of `dvrMap`. -/
def sourcelessRecordState : State :=
  { fullState with
    dvrMap := ⟨("", ⟨0x400000⟩) :: fullState.dvrMap.entries⟩
    record := ⟨true, false, "FE_DEFAULT", "DVR_RECORD", "DVR_SW_FE", "FILTER_RECORD", ""⟩ }

/-- The state `fullState` with every flag cleared and the two id fields it leaves at
the sentinel (`record.dvrSourceId`, `playback.sectionFilterId`) pointed at existing
entries, so that every id field of every record resolves. -/
def consistentState : State :=
  { fullState with
    live := { fullState.live with hasFrontendConnection := false }
    scan := { fullState.scan with hasFrontendConnection := false }
    playback := ⟨false, false, "DVR_PLAYBACK", "FILTER_AUDIO_DEFAULT", "FILTER_VIDEO_DEFAULT",
      "FILTER_EXTRA", ["FILTER_EXTRA"]⟩
    record := ⟨false, false, "FE_DEFAULT", "DVR_RECORD", "DVR_SW_FE", "FILTER_RECORD",
      "DVR_PLAYBACK"⟩
    descrambling := { fullState.descrambling with support := false }
    lnbLive := { fullState.lnbLive with support := false }
    lnbRecord := { fullState.lnbRecord with support := false }
    timeFilter := { fullState.timeFilter with support := false } }

/-- The state `fullState` with playback's `hasExtraFilters` cleared. -/
def plainPlaybackState : State :=
  { fullState with playback := { fullState.playback with hasExtraFilters := false } }

/-- The state `fullState` with playback's section filter set to an id that is not in
`filterMap`. -/
def missingSectionState : State :=
  { fullState with playback := { fullState.playback with sectionFilterId := "FILTER_SECTION" } }

/-- The eight steps of `determineDataFlows`, in call order. -/
def determineSteps : List (State → State) :=
  [determineScan, determineTimeFilter, determineDvrPlayback, determineLnbLive,
    determineLnbRecord, determineLive, determineDescrambling, determineDvrRecord]

/-- Run a list of steps from left to right. -/
def runSteps (l : List (State → State)) (s : State) : State :=
  l.foldl (fun s f => f s) s

/-- Every flag that is set in `s` is set in `t`. -/
def FlagsKept (s t : State) : Prop :=
  (s.live.hasFrontendConnection = true → t.live.hasFrontendConnection = true) ∧
  (s.scan.hasFrontendConnection = true → t.scan.hasFrontendConnection = true) ∧
  (s.record.support = true → t.record.support = true) ∧
  (s.descrambling.support = true → t.descrambling.support = true) ∧
  (s.lnbLive.support = true → t.lnbLive.support = true) ∧
  (s.lnbRecord.support = true → t.lnbRecord.support = true) ∧
  (s.playback.support = true → t.playback.support = true) ∧
  (s.timeFilter.support = true → t.timeFilter.support = true)

/-- The eight flags written by the determination steps. -/
def supportFlags (s : State) : List Bool :=
  [s.live.hasFrontendConnection, s.scan.hasFrontendConnection, s.record.support,
    s.descrambling.support, s.lnbLive.support, s.lnbRecord.support, s.playback.support,
    s.timeFilter.support]

/-! ## Map lemmas -/

namespace HwMap

variable {V : Type}

theorem contains_iff (m : HwMap V) (k : String) : m.contains k = true ↔ m.HasKey k := by
  rcases m with ⟨l⟩
  simp only [contains, find, HasKey, keys]
  induction l with
  | nil => simp
  | cons p l ih =>
    rcases p with ⟨a, b⟩
    by_cases h : k = a
    · subst h
      simp [List.lookup]
    · have h2 : (k == a) = false := by simpa using h
      simp only [List.lookup, h2, List.map_cons, List.mem_cons, h, false_or]
      exact ih

theorem contains_eq_false_iff (m : HwMap V) (k : String) :
    m.contains k = false ↔ ¬ m.HasKey k := by
  rw [← contains_iff]
  simp

theorem find_subscript [Inhabited V] (m : HwMap V) (k k2 : String) :
    (m.subscript k).2.find k2 =
      if m.contains k = false ∧ k2 = k then some default else m.find k2 := by
  unfold subscript contains
  cases h : m.find k with
  | some v => simp
  | none =>
    by_cases h2 : k2 = k
    · subst h2
      simp [find, List.lookup]
    · have h3 : (k2 == k) = false := by simpa using h2
      simp [find, List.lookup, h3, h2]

theorem fst_subscript [Inhabited V] (m : HwMap V) (k : String) :
    (m.subscript k).1 = (m.find k).getD default := by
  unfold subscript
  cases h : m.find k <;> simp

theorem subscript_of_contains [Inhabited V] (m : HwMap V) (k : String)
    (h : m.contains k = true) : (m.subscript k).2 = m := by
  unfold subscript
  unfold contains at h
  cases h2 : m.find k with
  | some v => simp
  | none => simp [h2] at h

end HwMap

/-! ## Software frontends -/

theorem isSoftwareFeAt_iff (m : HwMap FrontendConfig) (k : String) :
    isSoftwareFeAt m k = true ↔ SoftwareFeAt m k := by
  unfold isSoftwareFeAt SoftwareFeAt
  cases h : m.find k with
  | none => simp [default]
  | some c => simp

theorem subscript_isSoftwareFe (m : HwMap FrontendConfig) (k : String) :
    (m.subscript k).1.isSoftwareFe = isSoftwareFeAt m k := by
  rw [HwMap.fst_subscript, isSoftwareFeAt]

theorem isSoftwareFeAt_subscript (m : HwMap FrontendConfig) (k k2 : String) :
    isSoftwareFeAt (m.subscript k).2 k2 = isSoftwareFeAt m k2 := by
  unfold isSoftwareFeAt
  rw [HwMap.find_subscript]
  split
  · rename_i h
    rcases h with ⟨h1, h2⟩
    subst h2
    have : m.find k2 = none := by
      unfold HwMap.contains at h1
      cases h3 : m.find k2 with
      | none => rfl
      | some v => simp [h3] at h1
    simp [this]
  · rfl

/-! ## The DVR check as a pure function -/

theorem dvrIsValid_eq (s : State) :
    dvrIsValid s = (dvrCheck s, { s with frontendMap := frontendMapAfter s }) := by
  unfold dvrIsValid dvrCheck frontendMapAfter
  cases h1 : s.record.support <;> cases h2 : s.record.hasFrontendConnection <;>
    cases h3 : s.descrambling.support <;> cases h4 : s.descrambling.hasFrontendConnection <;>
    cases h5 : isSoftwareFeAt s.frontendMap s.record.frontendId <;>
    cases h6 : isSoftwareFeAt s.frontendMap s.descrambling.frontendId <;>
    simp [h1, h2, h3, h4, h5, h6, subscript_isSoftwareFe, isSoftwareFeAt_subscript,
      Bool.and_assoc]

/-! ## The verdict of `validateConnections` -/

theorem filterIsValid_frontendMap (s : State) (m : HwMap FrontendConfig) :
    filterIsValid { s with frontendMap := m } = filterIsValid s := rfl

theorem descramblerIsValid_frontendMap (s : State) (m : HwMap FrontendConfig) :
    descramblerIsValid { s with frontendMap := m } = descramblerIsValid s := rfl

theorem lnbIsValid_frontendMap (s : State) (m : HwMap FrontendConfig) :
    lnbIsValid { s with frontendMap := m } = lnbIsValid s := rfl

theorem diseqcMsgsIsValid_frontendMap (s : State) (m : HwMap FrontendConfig) :
    diseqcMsgsIsValid { s with frontendMap := m } = diseqcMsgsIsValid s := rfl

/-- The returned boolean as a conjunction over the state before the call. -/
theorem validateConnections_fst (s : State) :
    (validateConnections s).1 =
      (!recordHasNoSource s && feIsValid s && dvrCheck s && filterIsValid s &&
        descramblerIsValid s && lnbIsValid s && diseqcMsgsIsValid s) := by
  unfold validateConnections
  rw [dvrIsValid_eq]
  simp only [filterIsValid_frontendMap, descramblerIsValid_frontendMap,
    lnbIsValid_frontendMap, diseqcMsgsIsValid_frontendMap]
  split_ifs <;> simp_all

theorem validateConnections_true_iff (s : State) :
    (validateConnections s).1 = true ↔
      recordHasNoSource s = false ∧ feIsValid s = true ∧ dvrCheck s = true ∧
        filterIsValid s = true ∧ descramblerIsValid s = true ∧ lnbIsValid s = true ∧
        diseqcMsgsIsValid s = true := by
  rw [validateConnections_fst]
  simp [Bool.and_eq_true, and_assoc]

/-- The accumulating loop is a conjunction over the list. -/
theorem allResolve_eq {V : Type} (m : HwMap V) (acc : Bool) (ids : List String) :
    allResolve m acc ids = (acc && ids.all m.contains) := by
  unfold allResolve
  induction ids generalizing acc with
  | nil => simp
  | cons a l ih => simp [List.foldl, ih, Bool.and_assoc]

theorem allResolve_true_iff {V : Type} (m : HwMap V) (acc : Bool) (ids : List String) :
    allResolve m acc ids = true ↔ acc = true ∧ ∀ id ∈ ids, m.HasKey id := by
  rw [allResolve_eq]
  simp [HwMap.contains_iff]

theorem foldl_gated_eq {V : Type} (m : HwMap V) (g acc : Bool) (ids : List String) :
    ids.foldl (fun acc id => acc && (if g then m.contains id else true)) acc =
      (acc && (!g || ids.all m.contains)) := by
  cases g
  · induction ids generalizing acc with
    | nil => simp
    | cons a l ih => simp [List.foldl]
  · simpa [allResolve] using allResolve_eq m acc ids

/-! ## What each check means -/

theorem feIsValid_true_iff (s : State) :
    feIsValid s = true ↔
      (s.live.hasFrontendConnection = true → s.frontendMap.HasKey s.live.frontendId) ∧
      (s.scan.hasFrontendConnection = true → s.frontendMap.HasKey s.scan.frontendId) ∧
      (s.record.support = true → s.record.hasFrontendConnection = true →
        s.frontendMap.HasKey s.record.frontendId) ∧
      (s.descrambling.support = true → s.descrambling.hasFrontendConnection = true →
        s.frontendMap.HasKey s.descrambling.frontendId) ∧
      (s.lnbLive.support = true → s.frontendMap.HasKey s.lnbLive.frontendId) ∧
      (s.lnbRecord.support = true → s.frontendMap.HasKey s.lnbRecord.frontendId) := by
  simp only [feIsValid, ← HwMap.contains_iff]
  cases s.live.hasFrontendConnection <;> cases s.scan.hasFrontendConnection <;>
    cases s.record.support <;> cases s.record.hasFrontendConnection <;>
    cases s.descrambling.support <;> cases s.descrambling.hasFrontendConnection <;>
    cases s.lnbLive.support <;> cases s.lnbRecord.support <;>
    simp [and_assoc]

theorem dvrCheck_true_iff (s : State) :
    dvrCheck s = true ↔
      (SoftwareFeAt s.frontendMap s.live.frontendId →
        s.dvrMap.HasKey s.live.dvrSoftwareFeId) ∧
      (s.record.support = true →
        (s.record.hasFrontendConnection = true →
          SoftwareFeAt s.frontendMap s.record.frontendId →
          s.dvrMap.HasKey s.record.dvrSoftwareFeId) ∧
        (s.record.hasFrontendConnection = false → s.dvrMap.HasKey s.record.dvrSourceId) ∧
        s.dvrMap.HasKey s.record.dvrRecordId) ∧
      (s.descrambling.support = true →
        (s.descrambling.hasFrontendConnection = true →
          SoftwareFeAt s.frontendMap s.descrambling.frontendId →
          s.dvrMap.HasKey s.descrambling.dvrSoftwareFeId) ∧
        (s.descrambling.hasFrontendConnection = false →
          s.dvrMap.HasKey s.descrambling.dvrSourceId)) ∧
      (s.lnbRecord.support = true → s.dvrMap.HasKey s.lnbRecord.dvrRecordId) ∧
      (s.playback.support = true → s.dvrMap.HasKey s.playback.dvrId) := by
  simp only [dvrCheck, ← HwMap.contains_iff, ← isSoftwareFeAt_iff]
  cases isSoftwareFeAt s.frontendMap s.live.frontendId <;>
    cases isSoftwareFeAt s.frontendMap s.record.frontendId <;>
    cases isSoftwareFeAt s.frontendMap s.descrambling.frontendId <;>
    cases s.record.support <;> cases s.record.hasFrontendConnection <;>
    cases s.descrambling.support <;> cases s.descrambling.hasFrontendConnection <;>
    cases s.lnbRecord.support <;> cases s.playback.support <;>
    simp [and_assoc]

theorem filterIsValid_true_iff (s : State) :
    filterIsValid s = true ↔
      (s.live.hasFrontendConnection = true →
        s.filterMap.HasKey s.live.audioFilterId ∧ s.filterMap.HasKey s.live.videoFilterId) ∧
      (s.record.support = true → s.filterMap.HasKey s.record.recordFilterId) ∧
      (s.descrambling.support = true →
        s.filterMap.HasKey s.descrambling.videoFilterId ∧
          s.filterMap.HasKey s.descrambling.audioFilterId) ∧
      (∀ id ∈ s.descrambling.extraFilters, s.filterMap.HasKey id) ∧
      (s.lnbLive.support = true →
        s.filterMap.HasKey s.lnbLive.audioFilterId ∧
          s.filterMap.HasKey s.lnbLive.videoFilterId) ∧
      (s.lnbRecord.support = true → s.filterMap.HasKey s.lnbRecord.recordFilterId) ∧
      (∀ id ∈ s.lnbRecord.extraFilters, s.filterMap.HasKey id) ∧
      (∀ id ∈ s.lnbLive.extraFilters, s.filterMap.HasKey id) ∧
      (s.playback.support = true →
        s.filterMap.HasKey s.playback.audioFilterId ∧
          s.filterMap.HasKey s.playback.videoFilterId) ∧
      (s.playback.sectionFilterId ≠ s.emptyHardwareId →
        s.filterMap.HasKey s.playback.sectionFilterId) ∧
      (s.playback.hasExtraFilters = true →
        ∀ id ∈ s.playback.extraFilters, s.filterMap.HasKey id) := by
  simp only [filterIsValid, allResolve_eq, foldl_gated_eq, ← HwMap.contains_iff]
  simp only [Bool.and_eq_true, Bool.or_eq_true, Bool.not_eq_true', List.all_eq_true,
    Bool.ite_eq_true_distrib, if_true_right, if_true_left, beq_iff_eq, and_assoc,
    Bool.not_eq_true, ← Bool.not_eq_true, imp_iff_not_or, not_not]

theorem descramblerIsValid_true_iff (s : State) :
    descramblerIsValid s = true ↔
      (s.descrambling.support = true →
        s.descramblerMap.HasKey s.descrambling.descramblerId) := by
  simp only [descramblerIsValid, ← HwMap.contains_iff]
  cases s.descrambling.support <;> simp

theorem lnbIsValid_true_iff (s : State) :
    lnbIsValid s = true ↔
      (s.lnbLive.support = true → s.lnbMap.HasKey s.lnbLive.lnbId) ∧
      (s.lnbRecord.support = true → s.lnbMap.HasKey s.lnbRecord.lnbId) := by
  simp only [lnbIsValid, ← HwMap.contains_iff]
  cases s.lnbLive.support <;> cases s.lnbRecord.support <;> simp

theorem diseqcMsgsIsValid_true_iff (s : State) :
    diseqcMsgsIsValid s = true ↔
      (∀ msg ∈ s.lnbRecord.diseqcMsgs, s.diseqcMsgMap.HasKey msg) ∧
      (∀ msg ∈ s.lnbLive.diseqcMsgs, s.diseqcMsgMap.HasKey msg) := by
  simp only [diseqcMsgsIsValid, allResolve_true_iff]
  simp

theorem recordHasNoSource_eq_false_iff (s : State) :
    recordHasNoSource s = false ↔
      ¬ (s.record.support = true ∧ s.record.hasFrontendConnection = false ∧
        s.record.dvrSourceId = s.emptyHardwareId) := by
  simp only [recordHasNoSource]
  cases s.record.support <;> cases s.record.hasFrontendConnection <;> simp

/-! ## Soundness of the validator, category by category -/

/-- C1: when `validateConnections` returns true, the frontend id of every flow that
uses a frontend (live and scan with a frontend connection, supported record and
descrambling with a frontend connection, supported lnb-live and lnb-record) is a key
of `frontendMap`. -/
theorem validateConnections_frontend_sound (s : State)
    (h : (validateConnections s).1 = true) :
    (s.live.hasFrontendConnection = true → s.frontendMap.HasKey s.live.frontendId) ∧
    (s.scan.hasFrontendConnection = true → s.frontendMap.HasKey s.scan.frontendId) ∧
    (s.record.support = true → s.record.hasFrontendConnection = true →
      s.frontendMap.HasKey s.record.frontendId) ∧
    (s.descrambling.support = true → s.descrambling.hasFrontendConnection = true →
      s.frontendMap.HasKey s.descrambling.frontendId) ∧
    (s.lnbLive.support = true → s.frontendMap.HasKey s.lnbLive.frontendId) ∧
    (s.lnbRecord.support = true → s.frontendMap.HasKey s.lnbRecord.frontendId) :=
  (feIsValid_true_iff s).1 ((validateConnections_true_iff s).1 h).2.1

/-- C1 at `fullState`: the validator accepts it, so the live frontend id resolves. -/
theorem validateConnections_frontend_sound_witness :
    (validateConnections fullState).1 = true ∧
      fullState.frontendMap.HasKey fullState.live.frontendId :=
  ⟨by decide, (validateConnections_frontend_sound fullState (by decide)).1 (by decide)⟩

/-- C2: when `validateConnections` returns true, (a) a supported record flow has its
`dvrRecordId` in `dvrMap`; (b) without a frontend connection its `dvrSourceId` is in
`dvrMap`; (c) with a frontend connection to a software frontend its `dvrSoftwareFeId`
is in `dvrMap`; (d) a supported descrambling flow has the same two branches; (e) live
with a frontend connection to a software frontend has its `dvrSoftwareFeId` in
`dvrMap`; (f) supported playback has its `dvrId` in `dvrMap`; (g) supported lnb-record
has its `dvrRecordId` in `dvrMap`. -/
theorem validateConnections_dvr_sound (s : State)
    (h : (validateConnections s).1 = true) :
    (s.record.support = true → s.dvrMap.HasKey s.record.dvrRecordId) ∧
    (s.record.support = true → s.record.hasFrontendConnection = false →
      s.dvrMap.HasKey s.record.dvrSourceId) ∧
    (s.record.support = true → s.record.hasFrontendConnection = true →
      SoftwareFeAt s.frontendMap s.record.frontendId →
      s.dvrMap.HasKey s.record.dvrSoftwareFeId) ∧
    (s.descrambling.support = true → s.descrambling.hasFrontendConnection = false →
      s.dvrMap.HasKey s.descrambling.dvrSourceId) ∧
    (s.descrambling.support = true → s.descrambling.hasFrontendConnection = true →
      SoftwareFeAt s.frontendMap s.descrambling.frontendId →
      s.dvrMap.HasKey s.descrambling.dvrSoftwareFeId) ∧
    (s.live.hasFrontendConnection = true → SoftwareFeAt s.frontendMap s.live.frontendId →
      s.dvrMap.HasKey s.live.dvrSoftwareFeId) ∧
    (s.playback.support = true → s.dvrMap.HasKey s.playback.dvrId) ∧
    (s.lnbRecord.support = true → s.dvrMap.HasKey s.lnbRecord.dvrRecordId) := by
  obtain ⟨hl, hr, hd, hlr, hp⟩ := (dvrCheck_true_iff s).1 ((validateConnections_true_iff s).1 h).2.2.1
  exact ⟨fun a => (hr a).2.2, fun a b => (hr a).2.1 b, fun a b c => (hr a).1 b c,
    fun a b => (hd a).2 b, fun a b c => (hd a).1 b c, fun _ c => hl c, hp, hlr⟩

/-- C2 at `fullState`: record is fed from the software frontend `FE_DEFAULT`, so its
software-frontend DVR id resolves. -/
theorem validateConnections_dvr_sound_witness :
    (validateConnections fullState).1 = true ∧
      fullState.dvrMap.HasKey fullState.record.dvrSoftwareFeId :=
  ⟨by decide, (validateConnections_dvr_sound fullState (by decide)).2.2.1 (by decide)
    (by decide) ⟨⟨true, true, 0⟩, by decide, by decide⟩⟩

/-- C3: when `validateConnections` returns true, the filter ids of every flow that is
supported (live: with a frontend connection) are keys of `filterMap`: audio and video
for live, descrambling, lnb-live and playback, the record filter for record and
lnb-record, and every extra filter of descrambling, lnb-live and lnb-record. -/
theorem validateConnections_filter_sound (s : State)
    (h : (validateConnections s).1 = true) :
    (s.live.hasFrontendConnection = true →
      s.filterMap.HasKey s.live.audioFilterId ∧ s.filterMap.HasKey s.live.videoFilterId) ∧
    (s.record.support = true → s.filterMap.HasKey s.record.recordFilterId) ∧
    (s.descrambling.support = true →
      s.filterMap.HasKey s.descrambling.audioFilterId ∧
      s.filterMap.HasKey s.descrambling.videoFilterId ∧
      ∀ id ∈ s.descrambling.extraFilters, s.filterMap.HasKey id) ∧
    (s.lnbLive.support = true →
      s.filterMap.HasKey s.lnbLive.audioFilterId ∧
      s.filterMap.HasKey s.lnbLive.videoFilterId ∧
      ∀ id ∈ s.lnbLive.extraFilters, s.filterMap.HasKey id) ∧
    (s.lnbRecord.support = true →
      s.filterMap.HasKey s.lnbRecord.recordFilterId ∧
      ∀ id ∈ s.lnbRecord.extraFilters, s.filterMap.HasKey id) ∧
    (s.playback.support = true →
      s.filterMap.HasKey s.playback.audioFilterId ∧
      s.filterMap.HasKey s.playback.videoFilterId) := by
  obtain ⟨hl, hr, hd, hde, hll, hlr, hlre, hlle, hp, _, _⟩ :=
    (filterIsValid_true_iff s).1 ((validateConnections_true_iff s).1 h).2.2.2.1
  exact ⟨hl, hr, fun a => ⟨(hd a).2, (hd a).1, hde⟩, fun a => ⟨(hll a).1, (hll a).2, hlle⟩,
    fun a => ⟨hlr a, hlre⟩, hp⟩

/-- C3 at `fullState`: descrambling is supported, so its extra filter resolves. -/
theorem validateConnections_filter_sound_witness :
    (validateConnections fullState).1 = true ∧
      fullState.filterMap.HasKey "FILTER_EXTRA" :=
  ⟨by decide, ((validateConnections_filter_sound fullState (by decide)).2.2.1
    (by decide)).2.2 "FILTER_EXTRA" (by decide)⟩

/-- C4: when lnb-record is supported and its `lnbId` is not a key of `lnbMap`, or
lnb-live is supported and its `lnbId` is not a key of `lnbMap`, `validateConnections`
returns false. -/
theorem validateConnections_lnb_missing (s : State)
    (h : (s.lnbRecord.support = true ∧ ¬ s.lnbMap.HasKey s.lnbRecord.lnbId) ∨
      (s.lnbLive.support = true ∧ ¬ s.lnbMap.HasKey s.lnbLive.lnbId)) :
    (validateConnections s).1 = false := by
  rw [Bool.eq_false_iff]
  intro ht
  obtain ⟨hl, hr⟩ := (lnbIsValid_true_iff s).1 ((validateConnections_true_iff s).1 ht).2.2.2.2.2.1
  rcases h with ⟨a, b⟩ | ⟨a, b⟩
  · exact b (hr a)
  · exact b (hl a)

/-- C4 at `fullState` with the LNB map emptied: lnb-record still claims support, its
`lnbId` no longer resolves, and the validator rejects. -/
theorem validateConnections_lnb_missing_witness :
    ({ fullState with lnbMap := ⟨[]⟩ } : State).lnbRecord.support = true ∧
      ¬ ({ fullState with lnbMap := ⟨[]⟩ } : State).lnbMap.HasKey "LNB" ∧
      (validateConnections { fullState with lnbMap := ⟨[]⟩ }).1 = false :=
  ⟨by decide, by decide,
    validateConnections_lnb_missing { fullState with lnbMap := ⟨[]⟩ }
      (Or.inl ⟨by decide, by decide⟩)⟩

/-- C5: when descrambling is supported and its `descramblerId` is not a key of
`descramblerMap`, `validateConnections` returns false. -/
theorem validateConnections_descrambler_missing (s : State)
    (hs : s.descrambling.support = true)
    (hk : ¬ s.descramblerMap.HasKey s.descrambling.descramblerId) :
    (validateConnections s).1 = false := by
  rw [Bool.eq_false_iff]
  intro ht
  exact hk ((descramblerIsValid_true_iff s).1
    ((validateConnections_true_iff s).1 ht).2.2.2.2.1 hs)

/-- C5 at `fullState` with the descrambler map emptied. -/
theorem validateConnections_descrambler_missing_witness :
    ({ fullState with descramblerMap := ⟨[]⟩ } : State).descrambling.support = true ∧
      ¬ ({ fullState with descramblerMap := ⟨[]⟩ } : State).descramblerMap.HasKey
        "DESCRAMBLER" ∧
      (validateConnections { fullState with descramblerMap := ⟨[]⟩ }).1 = false :=
  ⟨by decide, by decide,
    validateConnections_descrambler_missing { fullState with descramblerMap := ⟨[]⟩ }
      (by decide) (by decide)⟩

/-- C6: when `validateConnections` returns true, every diseqc message id listed by
lnb-live and by lnb-record is a key of `diseqcMsgMap`. -/
theorem validateConnections_diseqc_sound (s : State)
    (h : (validateConnections s).1 = true) :
    (∀ msg ∈ s.lnbLive.diseqcMsgs, s.diseqcMsgMap.HasKey msg) ∧
    (∀ msg ∈ s.lnbRecord.diseqcMsgs, s.diseqcMsgMap.HasKey msg) :=
  ((diseqcMsgsIsValid_true_iff s).1
    ((validateConnections_true_iff s).1 h).2.2.2.2.2.2).symm

/-- C6 at `fullState`: the message listed by lnb-live resolves. -/
theorem validateConnections_diseqc_sound_witness :
    (validateConnections fullState).1 = true ∧
      fullState.diseqcMsgMap.HasKey "DISEQC_POWER_ON" :=
  ⟨by decide, (validateConnections_diseqc_sound fullState (by decide)).1
    "DISEQC_POWER_ON" (by decide)⟩

/-! ## The time filter and the overall verdict -/

/-- C7: the boolean returned by `validateConnections` does not depend on the time
filter record or the time filter map; in particular, when the time filter is
supported, its id is absent from `timeFilterMap` and every other check passes, the
time filter check fails and the result is still true. -/
theorem validateConnections_timeFilter_excluded (s : State)
    (tf : TimeFilterHardwareConnections) (tfm : HwMap TimeFilterConfig) :
    (validateConnections { s with timeFilter := tf, timeFilterMap := tfm }).1 =
        (validateConnections s).1 ∧
    (s.timeFilter.support = true → ¬ s.timeFilterMap.HasKey s.timeFilter.timeFilterId →
      recordHasNoSource s = false → feIsValid s = true → (dvrIsValid s).1 = true →
      filterIsValid s = true → descramblerIsValid s = true → lnbIsValid s = true →
      diseqcMsgsIsValid s = true →
      timeFilterIsValid s = false ∧ (validateConnections s).1 = true) := by
  refine ⟨?_, ?_⟩
  · rw [validateConnections_fst, validateConnections_fst]
    rfl
  · intro hs hk h0 h1 h2 h3 h4 h5 h6
    rw [dvrIsValid_eq] at h2
    refine ⟨?_, (validateConnections_true_iff s).2 ⟨h0, h1, h2, h3, h4, h5, h6⟩⟩
    simp only [timeFilterIsValid, hs, if_true]
    exact (HwMap.contains_eq_false_iff _ _).2 hk

/-- C7 at `fullState` with the time filter map emptied: the time filter check fails
and the validator still accepts, as it does for `fullState` itself. -/
theorem validateConnections_timeFilter_excluded_witness :
    (validateConnections { fullState with timeFilterMap := ⟨[]⟩ }).1 =
        (validateConnections fullState).1 ∧
      timeFilterIsValid { fullState with timeFilterMap := ⟨[]⟩ } = false ∧
      (validateConnections { fullState with timeFilterMap := ⟨[]⟩ }).1 = true :=
  ⟨(validateConnections_timeFilter_excluded fullState fullState.timeFilter ⟨[]⟩).1,
    (validateConnections_timeFilter_excluded { fullState with timeFilterMap := ⟨[]⟩ }
      fullState.timeFilter ⟨[]⟩).2 (by decide) (by decide) (by decide) (by decide)
      (by decide) (by decide) (by decide) (by decide) (by decide)⟩

/-- C8 as stated fails: in `danglingDiseqcState` the frontend, DVR, filter,
descrambler and LNB checks all pass, yet the validator returns false because a diseqc
message id does not resolve. -/
theorem verdict_misses_diseqc_counterexample :
    ¬ ((validateConnections danglingDiseqcState).1 = true ↔
        (feIsValid danglingDiseqcState = true ∧ (dvrIsValid danglingDiseqcState).1 = true ∧
          filterIsValid danglingDiseqcState = true ∧
          descramblerIsValid danglingDiseqcState = true ∧
          lnbIsValid danglingDiseqcState = true)) := by
  decide

/-- C8, amended: `validateConnections` returns true exactly when the record-source
guard does not fire (not: record supported, no frontend connection, `dvrSourceId`
equal to the sentinel) and the frontend, DVR, filter, descrambler, LNB and
diseqc-message checks all pass; the time filter check is not among the conditions. -/
theorem validateConnections_verdict (s : State) :
    (validateConnections s).1 = true ↔
      ¬ (s.record.support = true ∧ s.record.hasFrontendConnection = false ∧
          s.record.dvrSourceId = s.emptyHardwareId) ∧
        feIsValid s = true ∧ (dvrIsValid s).1 = true ∧ filterIsValid s = true ∧
        descramblerIsValid s = true ∧ lnbIsValid s = true ∧ diseqcMsgsIsValid s = true := by
  rw [validateConnections_true_iff, recordHasNoSource_eq_false_iff, dvrIsValid_eq]

/-- C9 as stated fails: in `danglingExtraFilterState` no flow claims support, yet the
validator returns false because an extra filter listed by descrambling does not
resolve. -/
theorem unsupported_extra_filter_counterexample :
    ¬ (NoSupportClaimed danglingExtraFilterState →
        (validateConnections danglingExtraFilterState).1 = true) := by
  decide

/-- C9, amended: when no flow claims support, `validateConnections` returns true
provided the references it checks regardless of support resolve: the extra filters
of descrambling, lnb-live and lnb-record (and of playback when `hasExtraFilters` is
set), the playback section filter unless it is the sentinel, and the diseqc messages
of lnb-live and lnb-record; the case of `live.frontendId` naming a software frontend
is left aside. All other identifier fields and all maps are arbitrary. -/
theorem validateConnections_nothing_supported (s : State) (h : NoSupportClaimed s)
    (hfe : ¬ SoftwareFeAt s.frontendMap s.live.frontendId)
    (hd : ∀ id ∈ s.descrambling.extraFilters, s.filterMap.HasKey id)
    (hll : ∀ id ∈ s.lnbLive.extraFilters, s.filterMap.HasKey id)
    (hlr : ∀ id ∈ s.lnbRecord.extraFilters, s.filterMap.HasKey id)
    (hp : s.playback.hasExtraFilters = true →
      ∀ id ∈ s.playback.extraFilters, s.filterMap.HasKey id)
    (hsec : s.playback.sectionFilterId = s.emptyHardwareId ∨
      s.filterMap.HasKey s.playback.sectionFilterId)
    (hml : ∀ msg ∈ s.lnbLive.diseqcMsgs, s.diseqcMsgMap.HasKey msg)
    (hmr : ∀ msg ∈ s.lnbRecord.diseqcMsgs, s.diseqcMsgMap.HasKey msg) :
    (validateConnections s).1 = true := by
  obtain ⟨h1, h2, h3, h4, h5, h6, h7, _⟩ := h
  rw [validateConnections_true_iff, recordHasNoSource_eq_false_iff, feIsValid_true_iff,
    dvrCheck_true_iff, filterIsValid_true_iff, descramblerIsValid_true_iff,
    lnbIsValid_true_iff, diseqcMsgsIsValid_true_iff]
  simp only [h1, h2, h3, h4, h5, h6, h7]
  refine ⟨by simp, by simp, ⟨fun c => absurd c hfe, by simp⟩, ?_, by simp, by simp, hmr, hml⟩
  refine ⟨by simp, by simp, by simp, hd, by simp, by simp, hlr, hll, by simp, ?_, hp⟩
  intro hne
  exact hsec.resolve_left hne

/-- C9, amended, at `blankState`: empty maps, no support claimed, no list entries. -/
theorem validateConnections_nothing_supported_witness :
    NoSupportClaimed (blankState "ID") ∧ (blankState "ID").frontendMap.keys = [] ∧
      (blankState "ID").filterMap.keys = [] ∧
      (validateConnections (blankState "ID")).1 = true :=
  ⟨by decide, by decide, by decide,
    validateConnections_nothing_supported (blankState "ID") (by decide)
      (fun hc => absurd ((isSoftwareFeAt_iff _ _).2 hc) (by decide))
      (by decide) (by decide) (by decide) (by decide) (by decide) (by decide) (by decide)⟩

/-! ## Support determination: closed forms and presence rules -/

theorem HwMap.empty_eq_false_iff {V : Type} (m : HwMap V) :
    m.empty = false ↔ m.keys ≠ [] := by
  rcases m with ⟨l⟩
  cases l <;> simp [HwMap.empty, HwMap.keys]

theorem HwMap.empty_eq_true_iff {V : Type} (m : HwMap V) :
    m.empty = true ↔ m.keys = [] := by
  rcases m with ⟨l⟩
  cases l <;> simp [HwMap.empty, HwMap.keys]

theorem isEmpty_eq_false_iff (l : List String) : l.isEmpty = false ↔ l ≠ [] := by
  cases l <;> simp

theorem determineScan_eq (s : State) :
    determineScan s = { s with scan := { s.scan with
      hasFrontendConnection := s.scan.hasFrontendConnection || !s.frontendMap.empty } } := by
  unfold determineScan
  cases s.frontendMap.empty <;> simp

theorem determineTimeFilter_eq (s : State) :
    determineTimeFilter s = { s with timeFilter := { s.timeFilter with
      support := s.timeFilter.support || !s.timeFilterMap.empty } } := by
  unfold determineTimeFilter
  cases s.timeFilterMap.empty <;> simp

theorem determineDvrPlayback_eq (s : State) :
    determineDvrPlayback s = { s with playback := { s.playback with
      support := s.playback.support ||
        (!s.playbackDvrIds.isEmpty && !s.audioFilterIds.isEmpty &&
          !s.videoFilterIds.isEmpty) } } := by
  unfold determineDvrPlayback
  cases s.playbackDvrIds.isEmpty <;> cases s.audioFilterIds.isEmpty <;>
    cases s.videoFilterIds.isEmpty <;> simp

theorem determineLnbLive_eq (s : State) :
    determineLnbLive s = { s with lnbLive := { s.lnbLive with
      support := s.lnbLive.support ||
        (!s.audioFilterIds.isEmpty && !s.videoFilterIds.isEmpty && !s.frontendMap.empty &&
          !s.lnbMap.empty) } } := by
  unfold determineLnbLive
  cases s.audioFilterIds.isEmpty <;> cases s.videoFilterIds.isEmpty <;>
    cases s.frontendMap.empty <;> cases s.lnbMap.empty <;> simp

theorem determineLnbRecord_eq (s : State) :
    determineLnbRecord s = { s with lnbRecord := { s.lnbRecord with
      support := s.lnbRecord.support ||
        (!s.frontendMap.empty && !s.recordFilterIds.isEmpty && !s.recordDvrIds.isEmpty &&
          !s.lnbMap.empty) } } := by
  unfold determineLnbRecord
  cases s.frontendMap.empty <;> cases s.recordFilterIds.isEmpty <;>
    cases s.recordDvrIds.isEmpty <;> cases s.lnbMap.empty <;> simp

theorem determineLive_eq (s : State) :
    determineLive s = { s with live := { s.live with
      hasFrontendConnection := s.live.hasFrontendConnection ||
        (!(s.videoFilterIds.isEmpty || s.audioFilterIds.isEmpty || s.frontendMap.empty) &&
          !(s.hasSwFe && !s.hasHwFe && s.dvrMap.empty)) } } := by
  obtain ⟨fm, flm, dm, lm, tfm, dqm, dsm, lv, sc, pb, rc, ds, ll, lr, tf, sw, hw, pids, aids,
    vids, rfids, rdids, eid⟩ := s
  simp only [determineLive]
  cases vids.isEmpty <;> cases aids.isEmpty <;> cases fm.empty <;> cases sw <;> cases hw <;>
    cases dm.empty <;> simp

theorem determineDescrambling_eq (s : State) :
    determineDescrambling s = { s with descrambling := { s.descrambling with
      support := s.descrambling.support ||
        (!(s.descramblerMap.empty || s.audioFilterIds.isEmpty || s.videoFilterIds.isEmpty) &&
          !(s.frontendMap.empty && s.playbackDvrIds.isEmpty) &&
          !(s.hasSwFe && !s.hasHwFe && s.playbackDvrIds.isEmpty)) } } := by
  obtain ⟨fm, flm, dm, lm, tfm, dqm, dsm, lv, sc, pb, rc, ds, ll, lr, tf, sw, hw, pids, aids,
    vids, rfids, rdids, eid⟩ := s
  simp only [determineDescrambling]
  cases dsm.empty <;> cases aids.isEmpty <;> cases vids.isEmpty <;> cases fm.empty <;>
    cases pids.isEmpty <;> cases sw <;> cases hw <;> simp

theorem determineDvrRecord_eq (s : State) :
    determineDvrRecord s = { s with record := { s.record with
      support := s.record.support ||
        (!(s.recordDvrIds.isEmpty || s.recordFilterIds.isEmpty) &&
          !(s.frontendMap.empty && s.playbackDvrIds.isEmpty) &&
          !(s.hasSwFe && !s.hasHwFe && s.playbackDvrIds.isEmpty)) } } := by
  obtain ⟨fm, flm, dm, lm, tfm, dqm, dsm, lv, sc, pb, rc, ds, ll, lr, tf, sw, hw, pids, aids,
    vids, rfids, rdids, eid⟩ := s
  simp only [determineDvrRecord]
  cases rdids.isEmpty <;> cases rfids.isEmpty <;> cases fm.empty <;> cases pids.isEmpty <;>
    cases sw <;> cases hw <;> simp

/-- The state after `determineDataFlows`, field by field. -/
theorem determineDataFlows_eq (s : State) :
    determineDataFlows s =
      { s with
        scan := { s.scan with
          hasFrontendConnection := s.scan.hasFrontendConnection || !s.frontendMap.empty }
        timeFilter := { s.timeFilter with
          support := s.timeFilter.support || !s.timeFilterMap.empty }
        playback := { s.playback with
          support := s.playback.support ||
            (!s.playbackDvrIds.isEmpty && !s.audioFilterIds.isEmpty &&
              !s.videoFilterIds.isEmpty) }
        lnbLive := { s.lnbLive with
          support := s.lnbLive.support ||
            (!s.audioFilterIds.isEmpty && !s.videoFilterIds.isEmpty &&
              !s.frontendMap.empty && !s.lnbMap.empty) }
        lnbRecord := { s.lnbRecord with
          support := s.lnbRecord.support ||
            (!s.frontendMap.empty && !s.recordFilterIds.isEmpty &&
              !s.recordDvrIds.isEmpty && !s.lnbMap.empty) }
        live := { s.live with
          hasFrontendConnection := s.live.hasFrontendConnection ||
            (!(s.videoFilterIds.isEmpty || s.audioFilterIds.isEmpty ||
                s.frontendMap.empty) &&
              !(s.hasSwFe && !s.hasHwFe && s.dvrMap.empty)) }
        descrambling := { s.descrambling with
          support := s.descrambling.support ||
            (!(s.descramblerMap.empty || s.audioFilterIds.isEmpty ||
                s.videoFilterIds.isEmpty) &&
              !(s.frontendMap.empty && s.playbackDvrIds.isEmpty) &&
              !(s.hasSwFe && !s.hasHwFe && s.playbackDvrIds.isEmpty)) }
        record := { s.record with
          support := s.record.support ||
            (!(s.recordDvrIds.isEmpty || s.recordFilterIds.isEmpty) &&
              !(s.frontendMap.empty && s.playbackDvrIds.isEmpty) &&
              !(s.hasSwFe && !s.hasHwFe && s.playbackDvrIds.isEmpty)) } } := by
  simp only [determineDataFlows, determineScan_eq, determineTimeFilter_eq,
    determineDvrPlayback_eq, determineLnbLive_eq, determineLnbRecord_eq, determineLive_eq,
    determineDescrambling_eq, determineDvrRecord_eq]

/-- C10: starting from a state whose flags are all false, after `determineDataFlows`
(a) scan has a frontend connection iff `frontendMap` is non-empty; (b) the time
filter is supported iff `timeFilterMap` is non-empty; (c) playback is supported iff
`playbackDvrIds`, `audioFilterIds` and `videoFilterIds` are all non-empty; (d)
lnb-live is supported iff `audioFilterIds`, `videoFilterIds`, `frontendMap` and
`lnbMap` are all non-empty; (e) lnb-record is supported iff `frontendMap`,
`recordFilterIds`, `recordDvrIds` and `lnbMap` are all non-empty. In particular an
empty `frontendMap` leaves scan, lnb-live and lnb-record unsupported. -/
theorem determineDataFlows_presence (s : State) (h : NoSupportClaimed s) :
    ((determineDataFlows s).scan.hasFrontendConnection = true ↔ s.frontendMap.keys ≠ []) ∧
    ((determineDataFlows s).timeFilter.support = true ↔ s.timeFilterMap.keys ≠ []) ∧
    ((determineDataFlows s).playback.support = true ↔
      s.playbackDvrIds ≠ [] ∧ s.audioFilterIds ≠ [] ∧ s.videoFilterIds ≠ []) ∧
    ((determineDataFlows s).lnbLive.support = true ↔
      s.audioFilterIds ≠ [] ∧ s.videoFilterIds ≠ [] ∧ s.frontendMap.keys ≠ [] ∧
        s.lnbMap.keys ≠ []) ∧
    ((determineDataFlows s).lnbRecord.support = true ↔
      s.frontendMap.keys ≠ [] ∧ s.recordFilterIds ≠ [] ∧ s.recordDvrIds ≠ [] ∧
        s.lnbMap.keys ≠ []) ∧
    (s.frontendMap.keys = [] →
      (determineDataFlows s).scan.hasFrontendConnection = false ∧
      (determineDataFlows s).lnbLive.support = false ∧
      (determineDataFlows s).lnbRecord.support = false) := by
  obtain ⟨_, h2, _, _, h5, h6, h7, h8⟩ := h
  rw [determineDataFlows_eq]
  refine ⟨?_, ?_, ?_, ?_, ?_, ?_⟩
  · simp [h2, HwMap.empty_eq_false_iff]
  · simp [h8, HwMap.empty_eq_false_iff]
  · simp [h7, and_assoc]
  · simp [h5, HwMap.empty_eq_false_iff, and_assoc]
  · simp [h6, HwMap.empty_eq_false_iff, and_assoc]
  · intro he
    simp [h2, h5, h6, (HwMap.empty_eq_true_iff _).2 he]

/-- C10 at `loadedState`: a frontend, an LNB, filters and a record DVR are
configured, no time filter and no playback DVR. -/
theorem determineDataFlows_presence_witness :
    NoSupportClaimed loadedState ∧
      (determineDataFlows loadedState).scan.hasFrontendConnection = true ∧
      (determineDataFlows loadedState).timeFilter.support = false ∧
      (determineDataFlows loadedState).playback.support = false ∧
      (determineDataFlows loadedState).lnbLive.support = true ∧
      (determineDataFlows loadedState).lnbRecord.support = true :=
  have h := determineDataFlows_presence loadedState (by decide)
  ⟨by decide, h.1.2 (by decide), by decide, by decide, h.2.2.2.1.2 (by decide),
    h.2.2.2.2.1.2 (by decide)⟩

/-! ## The rules for live, descrambling and record -/

/-- C11: starting from `live.hasFrontendConnection = false`, after `determineLive`
the flag is true iff `videoFilterIds`, `audioFilterIds` and `frontendMap` are all
non-empty and it is not the case that only software frontends exist (`hasSwFe`,
not `hasHwFe`) while `dvrMap` is empty. In particular an empty `frontendMap` leaves
live unsupported. -/
theorem determineLive_rule (s : State) (h : s.live.hasFrontendConnection = false) :
    ((determineLive s).live.hasFrontendConnection = true ↔
      s.videoFilterIds ≠ [] ∧ s.audioFilterIds ≠ [] ∧ s.frontendMap.keys ≠ [] ∧
        ¬ (s.hasSwFe = true ∧ s.hasHwFe = false ∧ s.dvrMap.keys = [])) ∧
    (s.frontendMap.keys = [] → (determineLive s).live.hasFrontendConnection = false) := by
  rw [determineLive_eq]
  refine ⟨?_, ?_⟩
  · simp only [h, Bool.false_or, Bool.and_eq_true, Bool.not_eq_true', Bool.or_eq_false_iff,
      isEmpty_eq_false_iff, HwMap.empty_eq_false_iff, and_assoc, Bool.and_eq_false_imp,
      HwMap.empty_eq_true_iff]
    tauto
  · intro he
    simp [h, (HwMap.empty_eq_true_iff _).2 he]

/-- C11 at `loadedState`: a hardware frontend and audio and video filter ids are
configured, so live gets its frontend connection. -/
theorem determineLive_rule_witness :
    loadedState.live.hasFrontendConnection = false ∧
      (determineLive loadedState).live.hasFrontendConnection = true :=
  ⟨by decide, (determineLive_rule loadedState (by decide)).1.2
    ⟨by decide, by decide, by decide, by decide⟩⟩


/-- C12: starting from `descrambling.support = false`, after `determineDescrambling`
the flag is true iff `descramblerMap`, `audioFilterIds` and `videoFilterIds` are all
non-empty, at least one of `frontendMap` and `playbackDvrIds` is non-empty, and it is
not the case that only software frontends exist while `playbackDvrIds` is empty. -/
theorem determineDescrambling_rule (s : State) (h : s.descrambling.support = false) :
    (determineDescrambling s).descrambling.support = true ↔
      s.descramblerMap.keys ≠ [] ∧ s.audioFilterIds ≠ [] ∧ s.videoFilterIds ≠ [] ∧
        (s.frontendMap.keys ≠ [] ∨ s.playbackDvrIds ≠ []) ∧
        ¬ (s.hasSwFe = true ∧ s.hasHwFe = false ∧ s.playbackDvrIds = []) := by
  rw [determineDescrambling_eq]
  simp only [h, Bool.false_or, Bool.and_eq_true, Bool.not_eq_true', Bool.or_eq_false_iff,
    isEmpty_eq_false_iff, HwMap.empty_eq_false_iff, and_assoc, Bool.and_eq_false_imp,
    HwMap.empty_eq_true_iff, List.isEmpty_iff]
  tauto

/-- C12 at `fullState` with the descrambling flag cleared: a descrambler, filters, a
hardware frontend and a playback DVR are configured, so descrambling is supported. -/
theorem determineDescrambling_rule_witness :
    ({ fullState with descrambling := { fullState.descrambling with support := false } }
        : State).descrambling.support = false ∧
      (determineDescrambling
        { fullState with descrambling := { fullState.descrambling with support := false } }
        ).descrambling.support = true :=
  ⟨by decide, (determineDescrambling_rule
    { fullState with descrambling := { fullState.descrambling with support := false } }
    (by decide)).2 ⟨by decide, by decide, by decide, Or.inl (by decide), by decide⟩⟩

/-- C13: starting from `record.support = false`, after `determineDvrRecord` the flag
is true iff `recordDvrIds` and `recordFilterIds` are both non-empty, at least one of
`frontendMap` and `playbackDvrIds` is non-empty, and it is not the case that only
software frontends exist while `playbackDvrIds` is empty. In particular, with a
hardware frontend present (`hasHwFe`, non-empty `frontendMap`) and non-empty
record-DVR and record-filter id lists, record becomes supported. -/
theorem determineDvrRecord_rule (s : State) (h : s.record.support = false) :
    ((determineDvrRecord s).record.support = true ↔
      s.recordDvrIds ≠ [] ∧ s.recordFilterIds ≠ [] ∧
        (s.frontendMap.keys ≠ [] ∨ s.playbackDvrIds ≠ []) ∧
        ¬ (s.hasSwFe = true ∧ s.hasHwFe = false ∧ s.playbackDvrIds = [])) ∧
    (s.hasHwFe = true → s.frontendMap.keys ≠ [] → s.recordDvrIds ≠ [] →
      s.recordFilterIds ≠ [] → (determineDvrRecord s).record.support = true) := by
  have key : (determineDvrRecord s).record.support = true ↔
      s.recordDvrIds ≠ [] ∧ s.recordFilterIds ≠ [] ∧
        (s.frontendMap.keys ≠ [] ∨ s.playbackDvrIds ≠ []) ∧
        ¬ (s.hasSwFe = true ∧ s.hasHwFe = false ∧ s.playbackDvrIds = []) := by
    rw [determineDvrRecord_eq]
    simp only [h, Bool.false_or, Bool.and_eq_true, Bool.not_eq_true', Bool.or_eq_false_iff,
      isEmpty_eq_false_iff, HwMap.empty_eq_false_iff, and_assoc, Bool.and_eq_false_imp,
      HwMap.empty_eq_true_iff, List.isEmpty_iff]
    tauto
  refine ⟨key, fun hhw hfe hd hf => key.2 ⟨hd, hf, Or.inl hfe, ?_⟩⟩
  rintro ⟨_, hno, _⟩
  rw [hhw] at hno
  exact Bool.noConfusion hno

/-- C13 at `loadedState`: one hardware frontend, record filter and record DVR ids. -/
theorem determineDvrRecord_rule_witness :
    loadedState.record.support = false ∧
      (determineDvrRecord loadedState).record.support = true :=
  ⟨by decide, (determineDvrRecord_rule loadedState (by decide)).2
    (by decide) (by decide) (by decide) (by decide)⟩

/-- C14: when all flags are initially false, only software frontends exist
(`hasSwFe`, not `hasHwFe`) and both `dvrMap` and `playbackDvrIds` are empty, then
after `determineDataFlows` live, descrambling and record are all unsupported,
whatever the other maps and id lists contain. -/
theorem determineDataFlows_software_only (s : State) (h : NoSupportClaimed s)
    (hsw : s.hasSwFe = true) (hhw : s.hasHwFe = false) (hdvr : s.dvrMap.keys = [])
    (hpb : s.playbackDvrIds = []) :
    (determineDataFlows s).live.hasFrontendConnection = false ∧
    (determineDataFlows s).descrambling.support = false ∧
    (determineDataFlows s).record.support = false := by
  obtain ⟨h1, _, h3, h4, _, _, _, _⟩ := h
  rw [determineDataFlows_eq]
  simp [h1, h3, h4, hsw, hhw, hpb, (HwMap.empty_eq_true_iff _).2 hdvr]

/-- C14 at `softwareOnlyState`: the frontend map holds the software frontend
`FE_DEFAULT` only and the DVR map is empty. -/
theorem determineDataFlows_software_only_witness :
    softwareOnlyState.frontendMap.keys = ["FE_DEFAULT"] ∧
      softwareOnlyState.dvrMap.keys = [] ∧
      (determineDataFlows softwareOnlyState).live.hasFrontendConnection = false ∧
      (determineDataFlows softwareOnlyState).descrambling.support = false ∧
      (determineDataFlows softwareOnlyState).record.support = false :=
  ⟨by decide, by decide,
    determineDataFlows_software_only softwareOnlyState (by decide) (by decide) (by decide)
      (by decide) (by decide)⟩


/-! ## The state left by `validateConnections` -/

/-- The state after the call: untouched when the function returns at the record
guard or at the frontend check, otherwise changed in `frontendMap` only. -/
theorem validateConnections_snd (s : State) :
    (validateConnections s).2 =
      if recordHasNoSource s || !feIsValid s then s
      else { s with frontendMap := frontendMapAfter s } := by
  unfold validateConnections
  rw [dvrIsValid_eq]
  simp only [filterIsValid_frontendMap, descramblerIsValid_frontendMap,
    lnbIsValid_frontendMap, diseqcMsgsIsValid_frontendMap]
  split_ifs <;> simp_all

/-- C15 fails on the code: on `emptyFrontendState` the first run of
`determineDataFlows` then `validateConnections` leaves scan without a frontend
connection and returns true, but stores the unset live frontend id in `frontendMap`;
the second run on the resulting state then connects scan and returns false. -/
theorem pipeline_rerun_differs :
    NoSupportClaimed emptyFrontendState ∧
    (validateConnections (determineDataFlows emptyFrontendState)).1 = true ∧
    (validateConnections (determineDataFlows emptyFrontendState)).2.scan.hasFrontendConnection
      = false ∧
    (validateConnections (determineDataFlows emptyFrontendState)).2.frontendMap.keys = [""] ∧
    (validateConnections (determineDataFlows
      (validateConnections (determineDataFlows emptyFrontendState)).2)).1 = false ∧
    (validateConnections (determineDataFlows
      (validateConnections (determineDataFlows emptyFrontendState)).2)
      ).2.scan.hasFrontendConnection = true := by
  decide

/-- C16 fails on the code: on `unsetLiveState`, where live has no frontend connection
and its frontend id is not a key of `frontendMap`, `validateConnections` returns true
and leaves that id behind as a new key of `frontendMap`. -/
theorem validateConnections_adds_frontend_key :
    unsetLiveState.live.hasFrontendConnection = false ∧
    ¬ unsetLiveState.frontendMap.HasKey unsetLiveState.live.frontendId ∧
    unsetLiveState.frontendMap.keys = ["FE_DEFAULT"] ∧
    (validateConnections unsetLiveState).1 = true ∧
    (validateConnections unsetLiveState).2.frontendMap.keys = ["", "FE_DEFAULT"] := by
  decide

/-- C20: when record is supported, has no frontend connection and its `dvrSourceId`
is the sentinel `emptyHardwareId`, `validateConnections` returns false, whatever the
maps contain. -/
theorem validateConnections_record_needs_source (s : State)
    (hs : s.record.support = true) (hf : s.record.hasFrontendConnection = false)
    (hd : s.record.dvrSourceId = s.emptyHardwareId) :
    (validateConnections s).1 = false := by
  rw [Bool.eq_false_iff]
  intro ht
  exact (recordHasNoSource_eq_false_iff s).1 ((validateConnections_true_iff s).1 ht).1
    ⟨hs, hf, hd⟩

/-- C20 at `sourcelessRecordState`: the sentinel is a key of `dvrMap` and every
check after the guard would pass, yet the validator rejects. -/
theorem validateConnections_record_needs_source_witness :
    sourcelessRecordState.dvrMap.HasKey sourcelessRecordState.emptyHardwareId ∧
      feIsValid sourcelessRecordState = true ∧
      (dvrIsValid sourcelessRecordState).1 = true ∧
      filterIsValid sourcelessRecordState = true ∧
      descramblerIsValid sourcelessRecordState = true ∧
      lnbIsValid sourcelessRecordState = true ∧
      diseqcMsgsIsValid sourcelessRecordState = true ∧
      (validateConnections sourcelessRecordState).1 = false :=
  ⟨by decide, by decide, by decide, by decide, by decide, by decide, by decide,
    validateConnections_record_needs_source sourcelessRecordState (by decide) (by decide)
      (by decide)⟩


/-! ## Completeness and the optional playback filters -/

/-- C18: when the record-source guard does not fire and every frontend id, DVR id,
filter id, extra filter id, descrambler id, LNB id and diseqc message id held by the
connection records is a key of its map (the playback section filter being the
sentinel or a key), `validateConnections` returns true, whatever the support flags
are. -/
theorem validateConnections_complete (s : State)
    (hguard : ¬ (s.record.support = true ∧ s.record.hasFrontendConnection = false ∧
      s.record.dvrSourceId = s.emptyHardwareId))
    (hfe : s.frontendMap.HasKey s.live.frontendId ∧ s.frontendMap.HasKey s.scan.frontendId ∧
      s.frontendMap.HasKey s.record.frontendId ∧
      s.frontendMap.HasKey s.descrambling.frontendId ∧
      s.frontendMap.HasKey s.lnbLive.frontendId ∧ s.frontendMap.HasKey s.lnbRecord.frontendId)
    (hdvr : s.dvrMap.HasKey s.live.dvrSoftwareFeId ∧ s.dvrMap.HasKey s.record.dvrSoftwareFeId ∧
      s.dvrMap.HasKey s.record.dvrSourceId ∧ s.dvrMap.HasKey s.record.dvrRecordId ∧
      s.dvrMap.HasKey s.descrambling.dvrSoftwareFeId ∧
      s.dvrMap.HasKey s.descrambling.dvrSourceId ∧
      s.dvrMap.HasKey s.lnbRecord.dvrRecordId ∧ s.dvrMap.HasKey s.playback.dvrId)
    (hfilter : s.filterMap.HasKey s.live.audioFilterId ∧
      s.filterMap.HasKey s.live.videoFilterId ∧
      s.filterMap.HasKey s.record.recordFilterId ∧
      s.filterMap.HasKey s.descrambling.audioFilterId ∧
      s.filterMap.HasKey s.descrambling.videoFilterId ∧
      s.filterMap.HasKey s.lnbLive.audioFilterId ∧
      s.filterMap.HasKey s.lnbLive.videoFilterId ∧
      s.filterMap.HasKey s.lnbRecord.recordFilterId ∧
      s.filterMap.HasKey s.playback.audioFilterId ∧
      s.filterMap.HasKey s.playback.videoFilterId)
    (hextra : (∀ id ∈ s.descrambling.extraFilters, s.filterMap.HasKey id) ∧
      (∀ id ∈ s.lnbLive.extraFilters, s.filterMap.HasKey id) ∧
      (∀ id ∈ s.lnbRecord.extraFilters, s.filterMap.HasKey id) ∧
      (∀ id ∈ s.playback.extraFilters, s.filterMap.HasKey id))
    (hsec : s.playback.sectionFilterId = s.emptyHardwareId ∨
      s.filterMap.HasKey s.playback.sectionFilterId)
    (hdesc : s.descramblerMap.HasKey s.descrambling.descramblerId)
    (hlnb : s.lnbMap.HasKey s.lnbLive.lnbId ∧ s.lnbMap.HasKey s.lnbRecord.lnbId)
    (hmsg : (∀ msg ∈ s.lnbLive.diseqcMsgs, s.diseqcMsgMap.HasKey msg) ∧
      (∀ msg ∈ s.lnbRecord.diseqcMsgs, s.diseqcMsgMap.HasKey msg)) :
    (validateConnections s).1 = true := by
  obtain ⟨f1, f2, f3, f4, f5, f6⟩ := hfe
  obtain ⟨d1, d2, d3, d4, d5, d6, d7, d8⟩ := hdvr
  obtain ⟨a1, a2, a3, a4, a5, a6, a7, a8, a9, a10⟩ := hfilter
  obtain ⟨x1, x2, x3, x4⟩ := hextra
  rw [validateConnections_true_iff, recordHasNoSource_eq_false_iff, feIsValid_true_iff,
    dvrCheck_true_iff, filterIsValid_true_iff, descramblerIsValid_true_iff,
    lnbIsValid_true_iff, diseqcMsgsIsValid_true_iff]
  refine ⟨hguard, ⟨fun _ => f1, fun _ => f2, fun _ _ => f3, fun _ _ => f4, fun _ => f5,
    fun _ => f6⟩, ⟨fun _ => d1, fun _ => ⟨fun _ _ => d2, fun _ => d3, d4⟩,
    fun _ => ⟨fun _ _ => d5, fun _ => d6⟩, fun _ => d7, fun _ => d8⟩, ?_, fun _ => hdesc,
    ⟨fun _ => hlnb.1, fun _ => hlnb.2⟩, hmsg.2, hmsg.1⟩
  exact ⟨fun _ => ⟨a1, a2⟩, fun _ => a3, fun _ => ⟨a5, a4⟩, x1, fun _ => ⟨a6, a7⟩,
    fun _ => a8, x3, x2, fun _ => ⟨a9, a10⟩, fun hne => hsec.resolve_left hne, fun _ => x4⟩

/-- C18 at `consistentState`: every reference resolves and no flag is set. -/
theorem validateConnections_complete_witness :
    NoSupportClaimed consistentState ∧ (validateConnections consistentState).1 = true :=
  ⟨by decide,
    validateConnections_complete consistentState (by decide) (by decide) (by decide)
      (by decide) (by decide) (by decide) (by decide) (by decide) (by decide)⟩


/-- C17: (a) when `playback.sectionFilterId` is the sentinel, the section filter
lookup is skipped: if the record guard does not fire, the other filter lookups
succeed and the frontend, DVR, descrambler, LNB and diseqc checks pass, the result is
true (whether or not the sentinel is a key of `filterMap`); when it differs from the
sentinel and is not a key of `filterMap`, the result is false. (b) With
`playback.hasExtraFilters` false the result does not depend on
`playback.extraFilters`. -/
theorem validateConnections_playback_optional (s : State) :
    (s.playback.sectionFilterId = s.emptyHardwareId →
      recordHasNoSource s = false ∧ feIsValid s = true ∧ (dvrIsValid s).1 = true ∧
        descramblerIsValid s = true ∧ lnbIsValid s = true ∧ diseqcMsgsIsValid s = true →
      (s.live.hasFrontendConnection = true →
        s.filterMap.HasKey s.live.audioFilterId ∧ s.filterMap.HasKey s.live.videoFilterId) →
      (s.record.support = true → s.filterMap.HasKey s.record.recordFilterId) →
      (s.descrambling.support = true →
        s.filterMap.HasKey s.descrambling.videoFilterId ∧
          s.filterMap.HasKey s.descrambling.audioFilterId) →
      (s.lnbLive.support = true →
        s.filterMap.HasKey s.lnbLive.audioFilterId ∧
          s.filterMap.HasKey s.lnbLive.videoFilterId) →
      (s.lnbRecord.support = true → s.filterMap.HasKey s.lnbRecord.recordFilterId) →
      (s.playback.support = true →
        s.filterMap.HasKey s.playback.audioFilterId ∧
          s.filterMap.HasKey s.playback.videoFilterId) →
      (∀ id ∈ s.descrambling.extraFilters, s.filterMap.HasKey id) →
      (∀ id ∈ s.lnbRecord.extraFilters, s.filterMap.HasKey id) →
      (∀ id ∈ s.lnbLive.extraFilters, s.filterMap.HasKey id) →
      (s.playback.hasExtraFilters = true →
        ∀ id ∈ s.playback.extraFilters, s.filterMap.HasKey id) →
      (validateConnections s).1 = true) ∧
    (s.playback.sectionFilterId ≠ s.emptyHardwareId →
      ¬ s.filterMap.HasKey s.playback.sectionFilterId →
      (validateConnections s).1 = false) ∧
    (s.playback.hasExtraFilters = false → ∀ ids : List String,
      (validateConnections
        { s with playback := { s.playback with extraFilters := ids } }).1 =
        (validateConnections s).1) := by
  refine ⟨?_, ?_, ?_⟩
  · intro hsec ⟨h0, h1, h2, h4, h5, h6⟩ a1 a2 a3 a4 a5 a6 x1 x2 x3 x4
    rw [dvrIsValid_eq] at h2
    refine (validateConnections_true_iff s).2 ⟨h0, h1, h2, ?_, h4, h5, h6⟩
    exact (filterIsValid_true_iff s).2
      ⟨a1, a2, a3, x1, a4, a5, x2, x3, a6, fun hne => absurd hsec hne, x4⟩
  · intro hne hk
    rw [Bool.eq_false_iff]
    intro ht
    exact hk (((filterIsValid_true_iff s).1
      ((validateConnections_true_iff s).1 ht).2.2.2.1).2.2.2.2.2.2.2.2.2.1 hne)
  · intro hx ids
    have hfilter : filterIsValid { s with playback := { s.playback with extraFilters := ids } }
        = filterIsValid s := by
      simp only [filterIsValid, foldl_gated_eq, hx]
      simp
    rw [validateConnections_fst, validateConnections_fst, hfilter]
    rfl

/-- C17 at `fullState` (section filter at the sentinel, which is not a key of
`filterMap`: accepted), at `missingSectionState` (an unresolved section filter:
rejected) and at `plainPlaybackState` (an unresolved extra filter is not looked at
when `hasExtraFilters` is false). -/
theorem validateConnections_playback_optional_witness :
    fullState.playback.sectionFilterId = fullState.emptyHardwareId ∧
      ¬ fullState.filterMap.HasKey fullState.emptyHardwareId ∧
      (validateConnections fullState).1 = true ∧
      (validateConnections missingSectionState).1 = false ∧
      (validateConnections { plainPlaybackState with
        playback := { plainPlaybackState.playback with extraFilters := ["FILTER_MISSING"] } }).1
        = (validateConnections plainPlaybackState).1 :=
  ⟨by decide, by decide,
    (validateConnections_playback_optional fullState).1 (by decide) (by decide) (by decide)
      (by decide) (by decide) (by decide) (by decide) (by decide) (by decide) (by decide)
      (by decide) (by decide),
    (validateConnections_playback_optional missingSectionState).2.1 (by decide) (by decide),
    (validateConnections_playback_optional plainPlaybackState).2.2 (by decide)
      ["FILTER_MISSING"]⟩


/-! ## Order independence of the determination steps -/

theorem mem_determineSteps (f : State → State) (h : f ∈ determineSteps) :
    f = determineScan ∨ f = determineTimeFilter ∨ f = determineDvrPlayback ∨
      f = determineLnbLive ∨ f = determineLnbRecord ∨ f = determineLive ∨
      f = determineDescrambling ∨ f = determineDvrRecord := by
  simpa [determineSteps] using h

theorem determineSteps_comm (f : State → State) (hf : f ∈ determineSteps)
    (g : State → State) (hg : g ∈ determineSteps) (s : State) : f (g s) = g (f s) := by
  rcases mem_determineSteps f hf with h | h | h | h | h | h | h | h <;>
    rcases mem_determineSteps g hg with k | k | k | k | k | k | k | k <;>
    subst h <;> subst k <;>
    simp only [determineScan_eq, determineTimeFilter_eq, determineDvrPlayback_eq,
      determineLnbLive_eq, determineLnbRecord_eq, determineLive_eq, determineDescrambling_eq,
      determineDvrRecord_eq]

theorem determineSteps_flagsKept (f : State → State) (hf : f ∈ determineSteps) (s : State) :
    FlagsKept s (f s) := by
  rcases mem_determineSteps f hf with h | h | h | h | h | h | h | h <;> subst h <;>
    simp only [determineScan_eq, determineTimeFilter_eq, determineDvrPlayback_eq,
      determineLnbLive_eq, determineLnbRecord_eq, determineLive_eq, determineDescrambling_eq,
      determineDvrRecord_eq, FlagsKept] <;>
    simp +contextual

theorem determineDataFlows_idem (s : State) :
    determineDataFlows (determineDataFlows s) = determineDataFlows s := by
  simp only [determineDataFlows_eq, Bool.or_assoc, Bool.or_self]


/-- C19: each determination step writes only the flag of its own record; any two
steps commute; running the eight steps in any order gives the state
`determineDataFlows` gives; running `determineDataFlows` twice gives the same state
as running it once; and no step clears a flag that was set. -/
theorem determine_order_independent :
    ((∀ s, determineScan s = { s with scan := { s.scan with
        hasFrontendConnection := (determineScan s).scan.hasFrontendConnection } }) ∧
      (∀ s, determineTimeFilter s = { s with timeFilter := { s.timeFilter with
        support := (determineTimeFilter s).timeFilter.support } }) ∧
      (∀ s, determineDvrPlayback s = { s with playback := { s.playback with
        support := (determineDvrPlayback s).playback.support } }) ∧
      (∀ s, determineLnbLive s = { s with lnbLive := { s.lnbLive with
        support := (determineLnbLive s).lnbLive.support } }) ∧
      (∀ s, determineLnbRecord s = { s with lnbRecord := { s.lnbRecord with
        support := (determineLnbRecord s).lnbRecord.support } }) ∧
      (∀ s, determineLive s = { s with live := { s.live with
        hasFrontendConnection := (determineLive s).live.hasFrontendConnection } }) ∧
      (∀ s, determineDescrambling s = { s with descrambling := { s.descrambling with
        support := (determineDescrambling s).descrambling.support } }) ∧
      (∀ s, determineDvrRecord s = { s with record := { s.record with
        support := (determineDvrRecord s).record.support } })) ∧
    (∀ f ∈ determineSteps, ∀ g ∈ determineSteps, ∀ s, f (g s) = g (f s)) ∧
    (∀ l : List (State → State), l.Perm determineSteps →
      ∀ s, runSteps l s = determineDataFlows s) ∧
    (∀ s, determineDataFlows (determineDataFlows s) = determineDataFlows s) ∧
    (∀ f ∈ determineSteps, ∀ s, FlagsKept s (f s)) := by
  refine ⟨⟨?_, ?_, ?_, ?_, ?_, ?_, ?_, ?_⟩, determineSteps_comm, ?_, determineDataFlows_idem,
    determineSteps_flagsKept⟩
  · intro s
    simp only [determineScan_eq]
  · intro s
    simp only [determineTimeFilter_eq]
  · intro s
    simp only [determineDvrPlayback_eq]
  · intro s
    simp only [determineLnbLive_eq]
  · intro s
    simp only [determineLnbRecord_eq]
  · intro s
    simp only [determineLive_eq]
  · intro s
    simp only [determineDescrambling_eq]
  · intro s
    simp only [determineDvrRecord_eq]
  · intro l hl s
    have hcomm : ∀ x ∈ l, ∀ y ∈ l, ∀ z : State, y (x z) = x (y z) := fun x hx y hy z =>
      determineSteps_comm y (hl.subset hy) x (hl.subset hx) z
    have hfold : l.foldl (fun (s : State) (f : State → State) => f s) s =
        determineSteps.foldl (fun (s : State) (f : State → State) => f s) s :=
      hl.foldl_eq' hcomm s
    unfold runSteps
    rw [hfold]
    rfl

/-- C19 at `loadedState`: the eight steps run in reverse order reach the state
`determineDataFlows` reaches. -/
theorem determine_order_independent_witness :
    determineSteps.reverse.Perm determineSteps ∧
      runSteps determineSteps.reverse loadedState = determineDataFlows loadedState :=
  ⟨List.reverse_perm _,
    determine_order_independent.2.2.1 determineSteps.reverse (List.reverse_perm _) loadedState⟩


/-! ## What the stray subscript can and cannot change -/

/-- The function `determineDataFlows` leaves the seven maps as they were. -/
theorem determineDataFlows_maps (s : State) :
    (determineDataFlows s).frontendMap = s.frontendMap ∧
    (determineDataFlows s).filterMap = s.filterMap ∧
    (determineDataFlows s).dvrMap = s.dvrMap ∧
    (determineDataFlows s).lnbMap = s.lnbMap ∧
    (determineDataFlows s).timeFilterMap = s.timeFilterMap ∧
    (determineDataFlows s).diseqcMsgMap = s.diseqcMsgMap ∧
    (determineDataFlows s).descramblerMap = s.descramblerMap := by
  rw [determineDataFlows_eq]
  exact ⟨rfl, rfl, rfl, rfl, rfl, rfl, rfl⟩

/-- The function `validateConnections` leaves the six maps other than `frontendMap`
as they were. -/
theorem validateConnections_other_maps (s : State) :
    (validateConnections s).2.filterMap = s.filterMap ∧
    (validateConnections s).2.dvrMap = s.dvrMap ∧
    (validateConnections s).2.lnbMap = s.lnbMap ∧
    (validateConnections s).2.timeFilterMap = s.timeFilterMap ∧
    (validateConnections s).2.diseqcMsgMap = s.diseqcMsgMap ∧
    (validateConnections s).2.descramblerMap = s.descramblerMap := by
  rw [validateConnections_snd]
  split <;> exact ⟨rfl, rfl, rfl, rfl, rfl, rfl⟩

/-- When `live.frontendId` is a key of `frontendMap`, `validateConnections` leaves
the whole state as it was. -/
theorem validateConnections_snd_of_live_key (s : State)
    (h : s.frontendMap.HasKey s.live.frontendId) : (validateConnections s).2 = s := by
  rw [validateConnections_snd]
  split
  · rfl
  · rename_i hc
    have hfe : feIsValid s = true := by
      cases hv : feIsValid s
      · simp [hv] at hc
      · rfl
    obtain ⟨_, _, hr, hd, _, _⟩ := (feIsValid_true_iff s).1 hfe
    have h1 : (s.frontendMap.subscript s.live.frontendId).2 = s.frontendMap :=
      HwMap.subscript_of_contains _ _ ((HwMap.contains_iff _ _).2 h)
    have h2 : frontendMapAfter s = s.frontendMap := by
      unfold frontendMapAfter
      simp only [h1]
      cases hrs : s.record.support <;> cases hrf : s.record.hasFrontendConnection <;>
        cases hds : s.descrambling.support <;>
        cases hdf : s.descrambling.hasFrontendConnection <;>
        simp [HwMap.subscript_of_contains, HwMap.contains_iff, hr, hd, hrs, hrf, hds, hdf]
    rw [h2]

/-- When `live.frontendId` is a key of `frontendMap`, running `determineDataFlows`
and `validateConnections` a second time repeats the first run's result and state. -/
theorem pipeline_rerun_of_live_key (s : State)
    (h : s.frontendMap.HasKey s.live.frontendId) :
    validateConnections (determineDataFlows
      (validateConnections (determineDataFlows s)).2) =
      validateConnections (determineDataFlows s) := by
  have hk : (determineDataFlows s).frontendMap.HasKey (determineDataFlows s).live.frontendId := by
    rw [determineDataFlows_eq]
    exact h
  rw [validateConnections_snd_of_live_key _ hk, determineDataFlows_idem]


theorem HwMap.hasKey_subscript [Inhabited V] (m : HwMap V) (k k2 : String)
    (h : m.HasKey k2) : (m.subscript k).2.HasKey k2 := by
  rw [← HwMap.contains_iff] at h ⊢
  unfold HwMap.contains at h ⊢
  rw [HwMap.find_subscript]
  split
  · rfl
  · exact h

theorem HwMap.empty_subscript [Inhabited V] (m : HwMap V) (k : String)
    (h : m.empty = false) : (m.subscript k).2.empty = false := by
  unfold HwMap.subscript
  cases m.find k with
  | some v => exact h
  | none => rfl

theorem frontendMapAfter_hasKey (s : State) (k : String) (h : s.frontendMap.HasKey k) :
    (frontendMapAfter s).HasKey k := by
  unfold frontendMapAfter
  have h1 := HwMap.hasKey_subscript s.frontendMap s.live.frontendId k h
  simp only
  split_ifs
  · exact HwMap.hasKey_subscript _ _ _ (HwMap.hasKey_subscript _ _ _ h1)
  · exact HwMap.hasKey_subscript _ _ _ h1
  · exact HwMap.hasKey_subscript _ _ _ h1
  · exact h1

theorem frontendMapAfter_empty (s : State) (h : s.frontendMap.empty = false) :
    (frontendMapAfter s).empty = false := by
  unfold frontendMapAfter
  have h1 := HwMap.empty_subscript s.frontendMap s.live.frontendId h
  simp only
  split_ifs
  · exact HwMap.empty_subscript _ _ (HwMap.empty_subscript _ _ h1)
  · exact HwMap.empty_subscript _ _ h1
  · exact HwMap.empty_subscript _ _ h1
  · exact h1

theorem isSoftwareFeAt_frontendMapAfter (s : State) (k : String) :
    isSoftwareFeAt (frontendMapAfter s) k = isSoftwareFeAt s.frontendMap k := by
  unfold frontendMapAfter
  simp only
  split_ifs <;> simp only [isSoftwareFeAt_subscript]


theorem determineDataFlows_frontendMap (s : State) (m : HwMap FrontendConfig)
    (h : m.empty = s.frontendMap.empty) :
    determineDataFlows { s with frontendMap := m } =
      { determineDataFlows s with frontendMap := m } := by
  simp only [determineDataFlows_eq, h]

theorem validateConnections_fst_frontendMapAfter (s : State) (h : feIsValid s = true) :
    (validateConnections { s with frontendMap := frontendMapAfter s }).1 =
      (validateConnections s).1 := by
  have hfe : feIsValid { s with frontendMap := frontendMapAfter s } = true := by
    obtain ⟨a, b, c, d, e, f⟩ := (feIsValid_true_iff s).1 h
    exact (feIsValid_true_iff _).2
      ⟨fun x => frontendMapAfter_hasKey s _ (a x), fun x => frontendMapAfter_hasKey s _ (b x),
        fun x y => frontendMapAfter_hasKey s _ (c x y),
        fun x y => frontendMapAfter_hasKey s _ (d x y),
        fun x => frontendMapAfter_hasKey s _ (e x), fun x => frontendMapAfter_hasKey s _ (f x)⟩
  have hdvr : dvrCheck { s with frontendMap := frontendMapAfter s } = dvrCheck s := by
    simp only [dvrCheck, isSoftwareFeAt_frontendMapAfter]
  rw [validateConnections_fst, validateConnections_fst, hfe, hdvr, h]
  rfl

/-- When `frontendMap` is non-empty, a second run of `determineDataFlows` and
`validateConnections` gives the same verdict and the same eight flags as the first. -/
theorem pipeline_rerun_of_nonempty (s : State) (h : s.frontendMap.keys ≠ []) :
    (validateConnections (determineDataFlows
      (validateConnections (determineDataFlows s)).2)).1 =
      (validateConnections (determineDataFlows s)).1 ∧
    supportFlags (determineDataFlows (validateConnections (determineDataFlows s)).2) =
      supportFlags (determineDataFlows s) := by
  have hne : (determineDataFlows s).frontendMap.empty = false := by
    rw [(determineDataFlows_maps s).1]
    exact (HwMap.empty_eq_false_iff _).2 h
  generalize hs1 : determineDataFlows s = s1 at hne ⊢
  have hidem : determineDataFlows s1 = s1 := by
    rw [← hs1]
    exact determineDataFlows_idem s
  rw [validateConnections_snd]
  split
  · rw [hidem]
    exact ⟨rfl, rfl⟩
  · rename_i hc
    have hfe : feIsValid s1 = true := by
      cases hv : feIsValid s1
      · simp [hv] at hc
      · rfl
    have hm : (frontendMapAfter s1).empty = s1.frontendMap.empty := by
      rw [frontendMapAfter_empty s1 hne, hne]
    rw [determineDataFlows_frontendMap s1 _ hm, hidem]
    exact ⟨validateConnections_fst_frontendMapAfter s1 hfe, rfl⟩


end TunerConfig
